import Mathlib

/-!
Verification of the message-passing core of the hackathon-todo multi-agent
system (src/models/messages.py, src/agents/base.py, src/agents/orchestrator.py,
src/agents/task_manager.py, src/agents/storage_handler.py,
src/backends/memory.py).

The Python code is shallowly embedded: pydantic model construction becomes an
explicit validating constructor returning `Except`, a raised Python exception
becomes the `.error` case of `Except PyErr`, and each agent's mutable state is
passed explicitly.  Timestamps (`timestamp`, `created_at`, `updated_at`,
`completed_at`) and structured logging are irrelevant to every verified
property and are not modelled.  `uuid4()` is modelled by an explicit generator
`gen : Nat -> String` together with a next-index counter, so that freshness
becomes a hypothesis about `gen` instead of an appeal to randomness.
-/

namespace Todo

/-- A Python value as it occurs in message payloads and results
(`dict[str, Any]`).  Dictionaries are association lists in insertion order,
mirroring CPython's ordered dicts.  A `Task` object stored directly in a
payload is the `.task` case (the storage handler distinguishes `dict` from
`Task` with `isinstance`). -/
inductive Value where
  | null
  | bool (b : Bool)
  | nat (n : Nat)
  | str (s : String)
  | list (xs : List Value)
  | dict (kvs : List (String × Value))
  | task (id title : String) (description : Option String) (status : String)
deriving Repr

/-- Python truthiness (`if not x`).  Mirrors CPython: `None`, `False`, `0`,
`""`, `[]`, `{}` are falsy; every `Task` object is truthy. -/
def pyTruthy : Value → Bool
  | .null => false
  | .bool b => b
  | .nat n => n != 0
  | .str s => s != ""
  | .list xs => !xs.isEmpty
  | .dict kvs => !kvs.isEmpty
  | .task _ _ _ _ => true

/-- `payload.get(key)`: association-list lookup.  A stored `None` and an
absent key are indistinguishable to `.get`, so a stored `.null` collapses to
`none` (every use site in the source either tests `is None` or truthiness,
for which the collapse is exact). -/
def pyGet : List (String × Value) → String → Option Value
  | [], _ => none
  | (k, v) :: rest, key =>
    if k = key then (match v with | .null => none | v => some v)
    else pyGet rest key

/-- `str.strip()`: drop leading and trailing whitespace (Python strips
unicode whitespace; the ASCII whitespace classes suffice for every string the
core manipulates). -/
def pyStrip (s : String) : String :=
  String.mk (((s.data.dropWhile Char.isWhitespace).reverse.dropWhile
    Char.isWhitespace).reverse)

/-- `str.startswith(prefix)`: literal prefix test, not a regex. -/
def pyStartswith (p s : String) : Bool :=
  p.data.isPrefixOf s.data

/-- `str(x)` as used in the source's f-strings.  Strings render bare; the
renderings of composite values are abbreviated (no verified property inspects
them). -/
def pyStr : Value → String
  | .null => "None"
  | .bool b => if b then "True" else "False"
  | .nat n => toString n
  | .str s => s
  | .list _ => "[...]"
  | .dict _ => "\x7b...\x7d"
  | .task id _ _ _ => "Task(id=\x27" ++ id ++ "\x27)"

/-- A raised Python exception, tagged with the handler-relevant class
(src/models/exceptions.py); the carried string is `str(e)`, i.e. the formatted
message.  `pydanticError` stands for pydantic's own `ValidationError`, raised
by model construction; it is a different class from the repository's
`ValidationError` and is caught only by bare `except Exception`. -/
inductive PyErr where
  | validationError (msg : String)
  | notFoundError (msg : String)
  | storageError (msg : String)
  | pydanticError (msg : String)
  | other (msg : String)
deriving Repr, DecidableEq

/-- `str(e)` for a raised exception. -/
def pyErrStr : PyErr → String
  | .validationError m => m
  | .notFoundError m => m
  | .storageError m => m
  | .pydanticError m => m
  | .other m => m

/-- `AgentResponse.status`: pydantic `Literal["success", "error"]`. -/
inductive RStatus where
  | success
  | error
deriving Repr, DecidableEq

/-- The `AgentMessage` envelope (src/models/messages.py).  `timestamp` is not
modelled. -/
structure AgentMessage where
  request_id : String
  sender : String
  recipient : String
  action : String
  payload : List (String × Value)
  correlation_id : String
deriving Repr

/-- The `AgentResponse` envelope (src/models/messages.py).  `timestamp` is not
modelled. -/
structure AgentResponse where
  request_id : String
  sender : String
  status : RStatus
  result : Option Value
  error : Option String
deriving Repr

/-- One pydantic string-field check of `AgentMessage`: `min_length=1` (which
fails exactly on the empty string) followed by the
`validate_non_empty_string` field validator, which rejects whitespace-only
input and stores the trimmed value.  The returned error names the offending
field, as pydantic's `ValidationError` does via the field location. -/
def validateNonEmpty (field v : String) : Except PyErr String :=
  if v = "" then .error (.pydanticError (field ++ ": string_too_short"))
  else if pyStrip v = "" then
    .error (.pydanticError (field ++ ": Field cannot be empty or whitespace-only"))
  else .ok (pyStrip v)

/-- Constructing an `AgentMessage`.  `sender`, `recipient` and `action` are
validated (and trimmed); `request_id`, `payload` and `correlation_id` are
accepted unchecked, exactly as in the source (neither field carries a
`min_length` or validator).  Call sites pass the `default_factory` results
(`uuid4` tokens) explicitly.  Construction is a pure function. -/
def mkAgentMessage (request_id sender recipient action : String)
    (payload : List (String × Value)) (correlation_id : String) :
    Except PyErr AgentMessage :=
  match validateNonEmpty "sender" sender with
  | .error e => .error e
  | .ok s =>
    match validateNonEmpty "recipient" recipient with
    | .error e => .error e
    | .ok r =>
      match validateNonEmpty "action" action with
      | .error e => .error e
      | .ok a =>
        .ok { request_id := request_id, sender := s, recipient := r, action := a,
              payload := payload, correlation_id := correlation_id }

/-- Constructing an `AgentResponse`.  Field checks run first (`request_id` and
`sender` carry `min_length=1`, which fails exactly on the empty string), then
the `validate_result_xor_error` model validator: a success response must not
carry an error; an error response must carry an error (`is None` test: the
empty string passes) and must not carry a result.  Construction is a pure
function. -/
def mkAgentResponse (request_id sender : String) (status : RStatus)
    (result : Option Value) (error : Option String) :
    Except PyErr AgentResponse :=
  if request_id = "" then .error (.pydanticError "request_id: string_too_short")
  else if sender = "" then .error (.pydanticError "sender: string_too_short")
  else
    match status with
    | .success =>
      match error with
      | some _ => .error (.pydanticError "Success response should not have an error")
      | none => .ok { request_id := request_id, sender := sender, status := .success,
                      result := result, error := none }
    | .error =>
      match error with
      | none => .error (.pydanticError "Error response must have an error message")
      | some e =>
        match result with
        | some _ => .error (.pydanticError "Error response should not have a result")
        | none => .ok { request_id := request_id, sender := sender, status := .error,
                        result := none, error := some e }

/-- `BaseAgent._create_success_response`. -/
def mkSuccessResponse (sender request_id : String) (result : Option Value) :
    Except PyErr AgentResponse :=
  mkAgentResponse request_id sender .success result none

/-- `BaseAgent._create_error_response`. -/
def mkErrorResponse (sender request_id error : String) :
    Except PyErr AgentResponse :=
  mkAgentResponse request_id sender .error none (some error)

/-- The `Task` entity (src/models/tasks.py), restricted to the fields the
message-passing core reads (`id`, `title`, `description`, `status`);
priority, due date, tags, recurrence and the timestamps are never inspected
by any verified property and are not modelled. -/
structure Task where
  id : String
  title : String
  description : Option String
  status : String
deriving Repr

/-- `Task.model_dump()`, restricted to the modelled fields. -/
def taskDump (t : Task) : Value :=
  .dict [("id", .str t.id), ("title", .str t.title),
         ("description", match t.description with | none => .null | some d => .str d),
         ("status", .str t.status)]

/-- An explicit source of `uuid4()` tokens: `gen` enumerates the tokens the
process will draw and `ix` is the index of the next draw. -/
structure IdGen where
  gen : Nat → String
  ix : Nat

/-- Draw the next generated id. -/
def IdGen.fresh (g : IdGen) : String × IdGen :=
  (g.gen g.ix, { g with ix := g.ix + 1 })

/-- `Task(**data)` / `Task(...)` construction with pydantic validation
(src/models/tasks.py): `title` is required, a string, `min_length=1`,
`max_length=200`, stripped and rejected when whitespace-only; `description`
is optional, at most 1000 characters, stripped, and collapses to `None` when
empty; `status` is a `Literal["pending", "completed"]` defaulting to
`"pending"`; a missing `id` is generated (`default_factory`). -/
def mkTask (g : IdGen) (id : Option Value) (title : Option Value)
    (description : Option Value) (status : Option Value) :
    IdGen × Except PyErr Task :=
  let (tid, g) :=
    match id with
    | some (.str s) => (Except.ok s, g)
    | some _ => (Except.error (PyErr.pydanticError "id: Input should be a valid string"), g)
    | none => let (f, g) := g.fresh; (Except.ok f, g)
  match tid with
  | .error e => (g, .error e)
  | .ok tid =>
    match title with
    | none => (g, .error (.pydanticError "title: Field required"))
    | some (.str s) =>
      if s = "" then (g, .error (.pydanticError "title: string_too_short"))
      else if s.length > 200 then (g, .error (.pydanticError "title: string_too_long"))
      else if pyStrip s = "" then
        (g, .error (.pydanticError "title: Title cannot be empty or whitespace-only"))
      else
        let desc : Except PyErr (Option String) :=
          match description with
          | none => .ok none
          | some (.str d) =>
            if d.length > 1000 then .error (.pydanticError "description: string_too_long")
            else if pyStrip d = "" then .ok none else .ok (some (pyStrip d))
          | some _ => .error (.pydanticError "description: Input should be a valid string")
        match desc with
        | .error e => (g, .error e)
        | .ok desc =>
          match status with
          | none => (g, .ok { id := tid, title := pyStrip s, description := desc,
                              status := "pending" })
          | some (.str st) =>
            if st = "pending" ∨ st = "completed" then
              (g, .ok { id := tid, title := pyStrip s, description := desc, status := st })
            else (g, .error (.pydanticError "status: Input should be pending or completed"))
          | some _ => (g, .error (.pydanticError "status: Input should be pending or completed"))
    | some _ => (g, .error (.pydanticError "title: Input should be a valid string"))

/-- `Task(**task_data)` for a payload value: keyword-splatting a dict reads
the modelled fields; splatting anything else (including a `Task` object) is a
`TypeError`.  Extra dict keys beyond the modelled fields are ignored here
(the source forbids extras, but every dict the core splats is a
`model_dump`). -/
def taskOfValue (g : IdGen) (v : Value) : IdGen × Except PyErr Task :=
  match v with
  | .dict kvs =>
    mkTask g (pyGet kvs "id") (pyGet kvs "title") (pyGet kvs "description")
      (pyGet kvs "status")
  | _ => (g, .error (.other "TypeError: argument after ** must be a mapping"))

/-- The in-memory store: `InMemoryBackend._tasks`, a dict from task id to
task, as an association list in insertion order with unique keys. -/
abbrev Store := List (String × Task)

/-- `self._tasks.get(task_id)` (also `task_id in self._tasks` via
`isSome`). -/
def storeGet : List (String × Task) → String → Option Task
  | [], _ => none
  | (k, t) :: rest, key => if k = key then some t else storeGet rest key

/-- `self._tasks[task.id] = task`: replace in place if present (dicts keep
the original insertion position), append otherwise. -/
def storeInsert : List (String × Task) → String → Task → List (String × Task)
  | [], key, t => [(key, t)]
  | (k, u) :: rest, key, t =>
    if k = key then (k, t) :: rest else (k, u) :: storeInsert rest key t

/-- `del self._tasks[task_id]`: remove the (unique) binding. -/
def storeRemove : List (String × Task) → String → List (String × Task)
  | [], _ => []
  | (k, u) :: rest, key => if k = key then rest else (k, u) :: storeRemove rest key

/-- `InMemoryBackend.get` (src/backends/memory.py).  The backend is keyed by
`str` task ids; looking up a non-string payload value never matches.
`user_id` is accepted and ignored by this backend. -/
def backendGet (store : List (String × Task)) (task_id : Value) : Option Task :=
  match task_id with
  | .str s => storeGet store s
  | _ => none

/-- `InMemoryBackend.delete`: returns the new store and `True` if the task
was deleted, `False` if not found.  Never raises. -/
def backendDelete (store : List (String × Task)) (task_id : Value) :
    List (String × Task) × Bool :=
  match task_id with
  | .str s => if (storeGet store s).isSome then (storeRemove store s, true) else (store, false)
  | _ => (store, false)

/-- `InMemoryBackend.save`: unconditional insert; the `StorageError` wrapper
is dead code for a dict assignment and the operation never raises. -/
def backendSave (store : List (String × Task)) (t : Task) : List (String × Task) :=
  storeInsert store t.id t

/-- `InMemoryBackend.update`: raises `NotFoundError` when the id is unknown
(`str(e)` carries the resource context appended by `_format_message`). -/
def backendUpdate (store : List (String × Task)) (t : Task) :
    Except PyErr (List (String × Task)) :=
  if (storeGet store t.id).isSome then .ok (storeInsert store t.id t)
  else .error (.notFoundError ("Task not found: " ++ t.id ++ " (type=task, id=" ++ t.id ++ ")"))

/-- `InMemoryBackend.query`: optional status filter; a non-string filter
value matches no task (Python `==` between a `str` and another type is
`False`). -/
def backendQuery (store : List (String × Task)) (status : Option Value) :
    List Task :=
  match status with
  | none => store.map (·.2)
  | some (.str s) => (store.map (·.2)).filter (fun t => t.status == s)
  | some _ => []

/-- `InMemoryBackend.clear`: returns the deleted count and the empty store. -/
def backendClear (store : List (String × Task)) : Nat × List (String × Task) :=
  (store.length, [])

/-- `except`-translation at the storage agent boundary
(`StorageHandlerAgent.handle_message`): `NotFoundError`, `StorageError` and
`ValidationError` become an error Response carrying `str(e)`; any other
exception becomes `"Internal error: {e}"`. -/
def storageTranslate (request_id : String) (e : PyErr) :
    Except PyErr AgentResponse :=
  match e with
  | .notFoundError msg => mkErrorResponse "storage_handler" request_id msg
  | .storageError msg => mkErrorResponse "storage_handler" request_id msg
  | .validationError msg => mkErrorResponse "storage_handler" request_id msg
  | e => mkErrorResponse "storage_handler" request_id ("Internal error: " ++ pyErrStr e)

/-- `StorageHandlerAgent._handle_save`.  The payload's `"task"` entry may be
a dict (revalidated via `Task(**data)`) or a `Task` object (used as is); a
missing entry or another type is an error Response. -/
def shHandleSave (g : IdGen) (store : Store) (m : AgentMessage) :
    IdGen × Store × Except PyErr AgentResponse :=
  match pyGet m.payload "task" with
  | none => (g, store, mkErrorResponse "storage_handler" m.request_id
      "Missing \x27task\x27 in payload")
  | some td =>
    match td with
    | .dict kvs =>
      match mkTask g (pyGet kvs "id") (pyGet kvs "title") (pyGet kvs "description")
          (pyGet kvs "status") with
      | (g, .error e) => (g, store, .error e)
      | (g, .ok t) =>
        (g, backendSave store t,
         mkSuccessResponse "storage_handler" m.request_id
           (some (.dict [("task", taskDump t)])))
    | .task id title description status =>
      let t : Task := { id := id, title := title, description := description,
                        status := status }
      (g, backendSave store t,
       mkSuccessResponse "storage_handler" m.request_id
         (some (.dict [("task", taskDump t)])))
    | _ => (g, store, mkErrorResponse "storage_handler" m.request_id
        "Invalid task data type")

/-- `StorageHandlerAgent._handle_get`. -/
def shHandleGet (g : IdGen) (store : Store) (m : AgentMessage) :
    IdGen × Store × Except PyErr AgentResponse :=
  match pyGet m.payload "task_id" with
  | none => (g, store, mkErrorResponse "storage_handler" m.request_id
      "Missing \x27task_id\x27 in payload")
  | some v =>
    if pyTruthy v then
      match backendGet store v with
      | none => (g, store, mkErrorResponse "storage_handler" m.request_id
          ("Task not found: " ++ pyStr v))
      | some t => (g, store, mkSuccessResponse "storage_handler" m.request_id
          (some (.dict [("task", taskDump t)])))
    else (g, store, mkErrorResponse "storage_handler" m.request_id
      "Missing \x27task_id\x27 in payload")

/-- `StorageHandlerAgent._handle_get_all`. -/
def shHandleGetAll (g : IdGen) (store : Store) (m : AgentMessage) :
    IdGen × Store × Except PyErr AgentResponse :=
  (g, store, mkSuccessResponse "storage_handler" m.request_id
    (some (.dict [("tasks", .list (store.map (fun e => taskDump e.2)))])))

/-- `StorageHandlerAgent._handle_update`.  `backend.update` raises
`NotFoundError` for an unknown id; the raise propagates to the dispatch
wrapper. -/
def shHandleUpdate (g : IdGen) (store : Store) (m : AgentMessage) :
    IdGen × Store × Except PyErr AgentResponse :=
  match pyGet m.payload "task" with
  | none => (g, store, mkErrorResponse "storage_handler" m.request_id
      "Missing \x27task\x27 in payload")
  | some td =>
    match td with
    | .dict kvs =>
      match mkTask g (pyGet kvs "id") (pyGet kvs "title") (pyGet kvs "description")
          (pyGet kvs "status") with
      | (g, .error e) => (g, store, .error e)
      | (g, .ok t) =>
        match backendUpdate store t with
        | .error e => (g, store, .error e)
        | .ok store => (g, store, mkSuccessResponse "storage_handler" m.request_id
            (some (.dict [("task", taskDump t)])))
    | .task id title description status =>
      let t : Task := { id := id, title := title, description := description,
                        status := status }
      match backendUpdate store t with
      | .error e => (g, store, .error e)
      | .ok store => (g, store, mkSuccessResponse "storage_handler" m.request_id
          (some (.dict [("task", taskDump t)])))
    | _ => (g, store, mkErrorResponse "storage_handler" m.request_id
        "Invalid task data type")

/-- `StorageHandlerAgent._handle_delete`.  A missing task is NOT an error:
the response is a success Response with `deleted = False` (the payload's
`task_id` value is echoed back). -/
def shHandleDelete (g : IdGen) (store : Store) (m : AgentMessage) :
    IdGen × Store × Except PyErr AgentResponse :=
  match pyGet m.payload "task_id" with
  | none => (g, store, mkErrorResponse "storage_handler" m.request_id
      "Missing \x27task_id\x27 in payload")
  | some v =>
    if pyTruthy v then
      match backendDelete store v with
      | (store, deleted) =>
        (g, store, mkSuccessResponse "storage_handler" m.request_id
          (some (.dict [("deleted", .bool deleted), ("task_id", v)])))
    else (g, store, mkErrorResponse "storage_handler" m.request_id
      "Missing \x27task_id\x27 in payload")

/-- `StorageHandlerAgent._handle_query`. -/
def shHandleQuery (g : IdGen) (store : Store) (m : AgentMessage) :
    IdGen × Store × Except PyErr AgentResponse :=
  let tasks := backendQuery store (pyGet m.payload "status")
  (g, store, mkSuccessResponse "storage_handler" m.request_id
    (some (.dict [("tasks", .list (tasks.map taskDump)),
                  ("count", .nat tasks.length)])))

/-- `StorageHandlerAgent._handle_clear`. -/
def shHandleClear (g : IdGen) (store : Store) (m : AgentMessage) :
    IdGen × Store × Except PyErr AgentResponse :=
  match backendClear store with
  | (count, store) =>
    (g, store, mkSuccessResponse "storage_handler" m.request_id
      (some (.dict [("cleared", .nat count)])))

/-- The `try/except` of `StorageHandlerAgent.handle_message` around a matched
handler: a raise is translated by `storageTranslate` (whose own construction
failure, if any, propagates as in the source, where
`_create_error_response` runs inside the `except` block). -/
def shWrap (request_id : String)
    (r : IdGen × Store × Except PyErr AgentResponse) :
    IdGen × Store × Except PyErr AgentResponse :=
  match r with
  | (g, store, .error e) => (g, store, storageTranslate request_id e)
  | ok => ok

/-- `StorageHandlerAgent.handle_message`: exact lookup of the action in the
registry populated in `__init__`, unknown actions answered with an error
Response, matched handlers run under the translating `try/except`. -/
def storageHandleMessage (g : IdGen) (store : Store) (m : AgentMessage) :
    IdGen × Store × Except PyErr AgentResponse :=
  match m.action with
  | "storage_save" => shWrap m.request_id (shHandleSave g store m)
  | "storage_get" => shWrap m.request_id (shHandleGet g store m)
  | "storage_get_all" => shWrap m.request_id (shHandleGetAll g store m)
  | "storage_update" => shWrap m.request_id (shHandleUpdate g store m)
  | "storage_delete" => shWrap m.request_id (shHandleDelete g store m)
  | "storage_query" => shWrap m.request_id (shHandleQuery g store m)
  | "storage_clear" => shWrap m.request_id (shHandleClear g store m)
  | a => (g, store, mkErrorResponse "storage_handler" m.request_id
      ("Unknown storage action: " ++ a))

/-- The task manager's effect context: the wrapped store, the uuid source,
and (as an observation trace) the sub-messages sent to the storage agent in
`_send_to_storage`, each paired with the storage agent's answer. -/
structure TMCtx where
  g : IdGen
  store : Store
  sent : List (AgentMessage × Except PyErr AgentResponse)

/-- `response.error or fallback`: Python `or` replaces both a missing and an
empty error text. -/
def pyOr (o : Option String) (fallback : String) : String :=
  match o with
  | some s => if s = "" then fallback else s
  | none => fallback

/-- `TaskManagerAgent._send_to_storage`: builds a fresh `AgentMessage`
(`request_id` freshly generated by its `default_factory`, `correlation_id`
passed through unchanged) and calls the storage agent's `handle_message`
directly.  A raise from construction or from the storage agent propagates;
the sent message and its answer are recorded in the trace. -/
def sendToStorage (ctx : TMCtx) (action : String)
    (payload : List (String × Value)) (correlation_id : String) :
    TMCtx × Except PyErr AgentResponse :=
  match ctx.g.fresh with
  | (f, g) =>
    match mkAgentMessage f "task_manager" "storage_handler" action payload
        correlation_id with
    | .error e => ({ ctx with g := g }, .error e)
    | .ok msg =>
      match storageHandleMessage g ctx.store msg with
      | (g, store, resp) =>
        ({ g := g, store := store, sent := ctx.sent ++ [(msg, resp)] }, resp)

/-- `Task.mark_complete` (timestamps not modelled). -/
def markComplete (t : Task) : Task :=
  { t with status := "completed" }

/-- `Task.update` restricted to the fields the task manager passes
(`title`, `description`).  `model_copy` does not re-validate, so a string is
copied in unchecked; a non-string payload value would only be rejected later,
when the storage agent re-validates via `Task(**data)` — modelled as an
immediate `TypeError` raise, which reaches the caller as an error Response by
the same `except` path. -/
def taskUpdate (t : Task) (title description : Option Value) :
    Except PyErr Task :=
  match title with
  | some (.str s) => cont s
  | some _ => .error (.other "TypeError: unsupported title value")
  | none => cont t.title
where cont (newTitle : String) : Except PyErr Task :=
  match description with
  | some (.str d) => .ok { t with title := newTitle, description := some d }
  | some _ => .error (.other "TypeError: unsupported description value")
  | none => .ok { t with title := newTitle }

/-- `response.result["task"]`: subscripting the result of a storage call.
`None` is not subscriptable and a missing key is a `KeyError`, both plain
exceptions caught only by the generic `except`. -/
def resultTask (result : Option Value) : Except PyErr Value :=
  match result with
  | none => .error (.other "TypeError: \x27NoneType\x27 object is not subscriptable")
  | some (.dict kvs) =>
    match pyGet kvs "task" with
    | some v => .ok v
    | none => .error (.other "KeyError: \x27task\x27")
  | some _ => .error (.other "TypeError: object is not subscriptable")

/-- `TaskManagerAgent._handle_add`. -/
def tmHandleAdd (ctx : TMCtx) (m : AgentMessage) :
    TMCtx × Except PyErr AgentResponse :=
  match pyGet m.payload "title" with
  | none => (ctx, mkErrorResponse "task_manager" m.request_id
      "Missing \x27title\x27 in payload")
  | some title =>
    if pyTruthy title then
      match mkTask ctx.g none (some title) (pyGet m.payload "description") none with
      | (g, .error e) => ({ ctx with g := g }, .error e)
      | (g, .ok task) =>
        match sendToStorage { ctx with g := g } "storage_save"
            [("task", taskDump task)] m.correlation_id with
        | (ctx, .error e) => (ctx, .error e)
        | (ctx, .ok r) =>
          if r.status = RStatus.error then
            (ctx, mkErrorResponse "task_manager" m.request_id
              (pyOr r.error "Failed to save task"))
          else (ctx, mkSuccessResponse "task_manager" m.request_id r.result)
    else (ctx, mkErrorResponse "task_manager" m.request_id
      "Missing \x27title\x27 in payload")

/-- `TaskManagerAgent._handle_list`. -/
def tmHandleList (ctx : TMCtx) (m : AgentMessage) :
    TMCtx × Except PyErr AgentResponse :=
  match sendToStorage ctx "storage_query"
      [("status", (pyGet m.payload "status").getD Value.null)]
      m.correlation_id with
  | (ctx, .error e) => (ctx, .error e)
  | (ctx, .ok r) =>
    if r.status = RStatus.error then
      (ctx, mkErrorResponse "task_manager" m.request_id
        (pyOr r.error "Failed to list tasks"))
    else (ctx, mkSuccessResponse "task_manager" m.request_id r.result)

/-- `TaskManagerAgent._handle_complete`. -/
def tmHandleComplete (ctx : TMCtx) (m : AgentMessage) :
    TMCtx × Except PyErr AgentResponse :=
  match pyGet m.payload "task_id" with
  | none => (ctx, mkErrorResponse "task_manager" m.request_id
      "Missing \x27task_id\x27 in payload")
  | some v =>
    if pyTruthy v then
      match sendToStorage ctx "storage_get" [("task_id", v)] m.correlation_id with
      | (ctx, .error e) => (ctx, .error e)
      | (ctx, .ok gr) =>
        if gr.status = RStatus.error then
          (ctx, mkErrorResponse "task_manager" m.request_id
            (pyOr gr.error ("Task not found: " ++ pyStr v)))
        else
          match resultTask gr.result with
          | .error e => (ctx, .error e)
          | .ok td =>
            match taskOfValue ctx.g td with
            | (g, .error e) => ({ ctx with g := g }, .error e)
            | (g, .ok task) =>
              match sendToStorage { ctx with g := g } "storage_update"
                  [("task", taskDump (markComplete task))] m.correlation_id with
              | (ctx, .error e) => (ctx, .error e)
              | (ctx, .ok ur) =>
                if ur.status = RStatus.error then
                  (ctx, mkErrorResponse "task_manager" m.request_id
                    (pyOr ur.error "Failed to complete task"))
                else (ctx, mkSuccessResponse "task_manager" m.request_id ur.result)
    else (ctx, mkErrorResponse "task_manager" m.request_id
      "Missing \x27task_id\x27 in payload")

/-- `TaskManagerAgent._handle_delete`.  The storage agent's
`deleted = False` success Response is turned into a
`"Task not found: <task_id>"` error Response here, at the business-logic
level. -/
def tmHandleDelete (ctx : TMCtx) (m : AgentMessage) :
    TMCtx × Except PyErr AgentResponse :=
  match pyGet m.payload "task_id" with
  | none => (ctx, mkErrorResponse "task_manager" m.request_id
      "Missing \x27task_id\x27 in payload")
  | some v =>
    if pyTruthy v then
      match sendToStorage ctx "storage_delete" [("task_id", v)] m.correlation_id with
      | (ctx, .error e) => (ctx, .error e)
      | (ctx, .ok r) =>
        if r.status = RStatus.error then
          (ctx, mkErrorResponse "task_manager" m.request_id
            (pyOr r.error "Failed to delete task"))
        else
          match r.result with
          | some (.dict kvs) =>
            let deleted := (pyGet kvs "deleted").getD (Value.bool false)
            if pyTruthy deleted then
              (ctx, mkSuccessResponse "task_manager" m.request_id
                (some (.dict [("deleted", .bool true), ("task_id", v)])))
            else
              (ctx, mkErrorResponse "task_manager" m.request_id
                ("Task not found: " ++ pyStr v))
          | some _ => (ctx, .error (.other
              "AttributeError: object has no attribute \x27get\x27"))
          | none => (ctx, .error (.other
              "AttributeError: \x27NoneType\x27 object has no attribute \x27get\x27"))
    else (ctx, mkErrorResponse "task_manager" m.request_id
      "Missing \x27task_id\x27 in payload")

/-- `TaskManagerAgent._handle_get`. -/
def tmHandleGet (ctx : TMCtx) (m : AgentMessage) :
    TMCtx × Except PyErr AgentResponse :=
  match pyGet m.payload "task_id" with
  | none => (ctx, mkErrorResponse "task_manager" m.request_id
      "Missing \x27task_id\x27 in payload")
  | some v =>
    if pyTruthy v then
      match sendToStorage ctx "storage_get" [("task_id", v)] m.correlation_id with
      | (ctx, .error e) => (ctx, .error e)
      | (ctx, .ok r) =>
        if r.status = RStatus.error then
          (ctx, mkErrorResponse "task_manager" m.request_id
            (pyOr r.error ("Task not found: " ++ pyStr v)))
        else (ctx, mkSuccessResponse "task_manager" m.request_id r.result)
    else (ctx, mkErrorResponse "task_manager" m.request_id
      "Missing \x27task_id\x27 in payload")

/-- `TaskManagerAgent._handle_update`. -/
def tmHandleUpdate (ctx : TMCtx) (m : AgentMessage) :
    TMCtx × Except PyErr AgentResponse :=
  match pyGet m.payload "task_id" with
  | none => (ctx, mkErrorResponse "task_manager" m.request_id
      "Missing \x27task_id\x27 in payload")
  | some v =>
    if pyTruthy v then
      let title := pyGet m.payload "title"
      let description := pyGet m.payload "description"
      match title, description with
      | none, none => (ctx, mkErrorResponse "task_manager" m.request_id
          "No update fields provided")
      | _, _ =>
        match sendToStorage ctx "storage_get" [("task_id", v)] m.correlation_id with
        | (ctx, .error e) => (ctx, .error e)
        | (ctx, .ok gr) =>
          if gr.status = RStatus.error then
            (ctx, mkErrorResponse "task_manager" m.request_id
              (pyOr gr.error ("Task not found: " ++ pyStr v)))
          else
            match resultTask gr.result with
            | .error e => (ctx, .error e)
            | .ok td =>
              match taskOfValue ctx.g td with
              | (g, .error e) => ({ ctx with g := g }, .error e)
              | (g, .ok task) =>
                match taskUpdate task title description with
                | .error e => ({ ctx with g := g }, .error e)
                | .ok updated =>
                  match sendToStorage { ctx with g := g } "storage_update"
                      [("task", taskDump updated)] m.correlation_id with
                  | (ctx, .error e) => (ctx, .error e)
                  | (ctx, .ok ur) =>
                    if ur.status = RStatus.error then
                      (ctx, mkErrorResponse "task_manager" m.request_id
                        (pyOr ur.error "Failed to update task"))
                    else (ctx, mkSuccessResponse "task_manager" m.request_id ur.result)
    else (ctx, mkErrorResponse "task_manager" m.request_id
      "Missing \x27task_id\x27 in payload")

/-- A task-manager action handler, as stored in the agent's mutable
`_actions` registry (`BaseAgent.register_action`). -/
def TMHandler := TMCtx → AgentMessage → TMCtx × Except PyErr AgentResponse

/-- `except`-translation at the task-manager boundary
(`TaskManagerAgent.handle_message`): the repository's `ValidationError` and
`NotFoundError` become an error Response carrying `str(e)`; any other
exception (including pydantic's own validation errors) becomes
`"Internal error: {e}"`. -/
def tmTranslate (request_id : String) (e : PyErr) :
    Except PyErr AgentResponse :=
  match e with
  | .validationError msg => mkErrorResponse "task_manager" request_id msg
  | .notFoundError msg => mkErrorResponse "task_manager" request_id msg
  | e => mkErrorResponse "task_manager" request_id
      ("Internal error: " ++ pyErrStr e)

/-- `TaskManagerAgent.handle_message`, parametric in the contents of the
`_actions` registry (which is mutable agent state populated by
`register_action`): unknown actions are answered with an error Response; a
matched handler runs under the translating `try/except`; the agent's
`status` field is never written (it is threaded through unchanged). -/
def tmHandleWith (actions : String → Option TMHandler) (status : String)
    (ctx : TMCtx) (m : AgentMessage) :
    String × TMCtx × Except PyErr AgentResponse :=
  match actions m.action with
  | none => (status, ctx, mkErrorResponse "task_manager" m.request_id
      ("Unknown task action: " ++ m.action))
  | some h =>
    match h ctx m with
    | (ctx, .ok r) => (status, ctx, .ok r)
    | (ctx, .error e) => (status, ctx, tmTranslate m.request_id e)

/-- The registry populated in `TaskManagerAgent.__init__`. -/
def tmActions : String → Option TMHandler := fun a =>
  match a with
  | "task_add" => some tmHandleAdd
  | "task_list" => some tmHandleList
  | "task_complete" => some tmHandleComplete
  | "task_delete" => some tmHandleDelete
  | "task_get" => some tmHandleGet
  | "task_update" => some tmHandleUpdate
  | _ => none

/-- `TaskManagerAgent.handle_message` with the registry its constructor
builds. -/
def tmHandleMessage : String → TMCtx → AgentMessage →
    String × TMCtx × Except PyErr AgentResponse :=
  tmHandleWith tmActions

/-- `OrchestratorAgent.ROUTE_PREFIXES`: a class-level dict, insertion-ordered
and never mutated, scanned in declaration order. -/
def ROUTE_PREFIXES : List (String × String) :=
  [("task_", "task_manager"),
   ("storage_", "storage_handler"),
   ("ui_", "ui_controller"),
   ("system_", "orchestrator")]

/-- `OrchestratorAgent._get_route_for_action`: first declared entry whose
prefix is a literal prefix (`str.startswith`) of the action wins; `None` when
nothing matches.  A pure function of the action alone. -/
def getRouteForAction (action : String) : Option String :=
  (ROUTE_PREFIXES.find? (fun pr => pyStartswith pr.1 action)).map (fun pr => pr.2)

/-- The state of `BaseAgent` as far as the lifecycle is concerned: `name` and
`version` are immutable, `status` is the mutable lifecycle field
(src/agents/base.py). -/
structure BaseAgentState where
  name : String
  version : String
  status : String

/-- `BaseAgent.start`: sets status to `"active"`, nothing else. -/
def baseStart (a : BaseAgentState) : BaseAgentState :=
  { a with status := "active" }

/-- `BaseAgent.stop`: sets status to `"inactive"`, nothing else. -/
def baseStop (a : BaseAgentState) : BaseAgentState :=
  { a with status := "inactive" }

/-- The whole-system state for the orchestrator wired by
`create_orchestrator`: the orchestrator's own lifecycle status and `_running`
flag, the status fields of the three constructed agents, the storage
backend's store, the uuid source, and the `_agents` registration table
(agent names in registration order; the concrete wiring maps
`"storage_handler"`, `"task_manager"` and `"ui_controller"` to the agents
built in the factory). -/
structure SysState where
  orchStatus : String
  running : Bool
  tmStatus : String
  shStatus : String
  uiStatus : String
  store : Store
  g : IdGen
  agents : List String

/-- `OrchestratorAgent.start`: `super().start()` (own status active), then
`running = True`, then `start()` on every registered agent in registration
order. -/
def orchStart (s : SysState) : SysState :=
  { s with orchStatus := "active", running := true,
           tmStatus := if "task_manager" ∈ s.agents then "active" else s.tmStatus,
           shStatus := if "storage_handler" ∈ s.agents then "active" else s.shStatus,
           uiStatus := if "ui_controller" ∈ s.agents then "active" else s.uiStatus }

/-- `OrchestratorAgent.stop`: `running = False`, `stop()` on every registered
agent, then `super().stop()` (own status inactive). -/
def orchStop (s : SysState) : SysState :=
  { s with orchStatus := "inactive", running := false,
           tmStatus := if "task_manager" ∈ s.agents then "inactive" else s.tmStatus,
           shStatus := if "storage_handler" ∈ s.agents then "inactive" else s.shStatus,
           uiStatus := if "ui_controller" ∈ s.agents then "inactive" else s.uiStatus }

/-- Supported actions of the task manager, as registered in its
constructor. -/
def taskManagerActions : List String :=
  ["task_add", "task_list", "task_complete", "task_delete", "task_get",
   "task_update"]

/-- Supported actions of the storage handler, as registered in its
constructor. -/
def storageHandlerActions : List String :=
  ["storage_save", "storage_get", "storage_get_all", "storage_update",
   "storage_delete", "storage_query", "storage_clear"]

/-- Supported actions of the UI controller, as registered in its
constructor. -/
def uiControllerActions : List String :=
  ["ui_display_menu", "ui_get_choice", "ui_get_task_details",
   "ui_get_update_details", "ui_display_tasks", "ui_display_task",
   "ui_display_message", "ui_confirm", "ui_select_task", "ui_welcome",
   "ui_goodbye"]

/-- `AgentInfo` construction inside `BaseAgent.get_info`, dumped to a dict
(`info.model_dump()`).  The pydantic `Literal` on `status` rejects anything
outside active/inactive/error (never hit from a reachable state). -/
def mkAgentInfo (name status version : String) (acts : List String) :
    Except PyErr Value :=
  if status = "active" ∨ status = "inactive" ∨ status = "error" then
    .ok (.dict [("name", .str name), ("status", .str status),
                ("version", .str version),
                ("supported_actions", .list (acts.map Value.str))])
  else .error (.pydanticError "status: Input should be active, inactive or error")

/-- `agent.get_info().model_dump()` for a registered agent name under the
factory wiring.  Names outside the factory's three agents have no modelled
implementation and contribute nothing. -/
def infoFor (s : SysState) (name : String) : Option (Except PyErr Value) :=
  if name = "storage_handler" then
    some (mkAgentInfo name s.shStatus "1.0.0" storageHandlerActions)
  else if name = "task_manager" then
    some (mkAgentInfo name s.tmStatus "1.0.0" taskManagerActions)
  else if name = "ui_controller" then
    some (mkAgentInfo name s.uiStatus "1.0.0" uiControllerActions)
  else none

/-- The descriptor list built by iterating `self._agents.values()`; the first
raise (if any) propagates. -/
def agentInfos (s : SysState) : List String → Except PyErr (List Value)
  | [] => .ok []
  | n :: rest =>
    match infoFor s n with
    | none => agentInfos s rest
    | some (.error e) => .error e
    | some (.ok v) =>
      match agentInfos s rest with
      | .error e => .error e
      | .ok vs => .ok (v :: vs)

/-- `OrchestratorAgent._handle_status`. -/
def orchHandleStatus (s : SysState) (m : AgentMessage) :
    SysState × Except PyErr AgentResponse :=
  match agentInfos s s.agents with
  | .error e => (s, .error e)
  | .ok infos =>
    (s, mkSuccessResponse "orchestrator" m.request_id
      (some (.dict
        [("orchestrator", .dict
           [("name", .str "orchestrator"), ("version", .str "1.0.0"),
            ("status", .str s.orchStatus), ("running", .bool s.running)]),
         ("agents", .list infos),
         ("total_agents", .nat s.agents.length)])))

/-- `OrchestratorAgent._handle_agents`. -/
def orchHandleAgents (s : SysState) (m : AgentMessage) :
    SysState × Except PyErr AgentResponse :=
  match agentInfos s s.agents with
  | .error e => (s, .error e)
  | .ok infos =>
    (s, mkSuccessResponse "orchestrator" m.request_id
      (some (.dict [("agents", .list infos), ("count", .nat infos.length)])))

/-- `OrchestratorAgent._handle_shutdown`: flips `_running` to `False` and
acknowledges with a success Response; it touches nothing else — in
particular it does not call `stop()` on any agent and writes no status
field. -/
def orchHandleShutdown (s : SysState) (m : AgentMessage) :
    SysState × Except PyErr AgentResponse :=
  ({ s with running := false },
   mkSuccessResponse "orchestrator" m.request_id
     (some (.dict [("shutdown", .bool true)])))

/-- The orchestrator's own `_actions` registry, populated in `__init__`. -/
def orchSystemActions (a : String) :
    Option (SysState → AgentMessage → SysState × Except PyErr AgentResponse) :=
  match a with
  | "system_status" => some orchHandleStatus
  | "system_agents" => some orchHandleAgents
  | "system_shutdown" => some orchHandleShutdown
  | _ => none

/-- The trace of sub-messages sent to the storage agent during one call
(observation only). -/
abbrev Trace := List (AgentMessage × Except PyErr AgentResponse)

/-- `OrchestratorAgent.handle_message` under the factory wiring, with the UI
controller's console-bound behaviour abstracted as `ui` (the console is an
external device, outside the verified core; no verified property routes a
`ui_` action).  Steps, as in the source: resolve the route by prefix; with no
route answer an error Response naming the action and the known prefixes
(`list(ROUTE_PREFIXES.keys())` renders as the bracketed list below); for the
`system_` namespace look up the orchestrator's own registry and run the
handler under a `try/except` that prefixes `"System error: "`; otherwise look
the target up in `_agents` (unregistered names are an error Response) and
forward the message unchanged, catching any raise as
`"Error routing to {name}: {e}"`. -/
def orchHandleMessage (ui : AgentMessage → Except PyErr AgentResponse)
    (s : SysState) (m : AgentMessage) :
    SysState × Trace × Except PyErr AgentResponse :=
  match getRouteForAction m.action with
  | none =>
    (s, [], mkErrorResponse "orchestrator" m.request_id
      ("Unknown action: " ++ m.action ++
       ". Expected prefixes: [\x27task_\x27, \x27storage_\x27, \x27ui_\x27, \x27system_\x27]"))
  | some agent_name =>
    if agent_name = "orchestrator" then
      match orchSystemActions m.action with
      | none =>
        (s, [], mkErrorResponse "orchestrator" m.request_id
          ("Unknown system action: " ++ m.action))
      | some handler =>
        match handler s m with
        | (s, .ok r) => (s, [], .ok r)
        | (s, .error e) =>
          (s, [], mkErrorResponse "orchestrator" m.request_id
            ("System error: " ++ pyErrStr e))
    else if agent_name ∈ s.agents then
      if agent_name = "task_manager" then
        match tmHandleMessage s.tmStatus { g := s.g, store := s.store, sent := [] } m with
        | (tmStatus, ctx, .ok r) =>
          ({ s with tmStatus := tmStatus, g := ctx.g, store := ctx.store },
           ctx.sent, .ok r)
        | (tmStatus, ctx, .error e) =>
          ({ s with tmStatus := tmStatus, g := ctx.g, store := ctx.store },
           ctx.sent, mkErrorResponse "orchestrator" m.request_id
             ("Error routing to task_manager: " ++ pyErrStr e))
      else if agent_name = "storage_handler" then
        match storageHandleMessage s.g s.store m with
        | (g, store, .ok r) => ({ s with g := g, store := store }, [], .ok r)
        | (g, store, .error e) =>
          ({ s with g := g, store := store }, [],
           mkErrorResponse "orchestrator" m.request_id
             ("Error routing to storage_handler: " ++ pyErrStr e))
      else if agent_name = "ui_controller" then
        match ui m with
        | .ok r => (s, [], .ok r)
        | .error e =>
          (s, [], mkErrorResponse "orchestrator" m.request_id
            ("Error routing to ui_controller: " ++ pyErrStr e))
      else
        -- the prefix table maps only to the four names handled above, so a
        -- registered name reaching this branch is impossible
        (s, [], .error (.other "unmodelled agent"))
    else
      (s, [], mkErrorResponse "orchestrator" m.request_id
        ("Agent not registered: " ++ agent_name))

/-- `create_orchestrator` (src/agents/orchestrator.py): builds the storage
agent around the given backend, the task manager depending on it, the UI
controller around a console adapter, registers the three into a fresh
orchestrator — and returns it without calling `start()` on anything, so every
status is the constructor's `"inactive"` and `running` is `False`. -/
def createOrchestrator (store : Store) (g : IdGen) : SysState :=
  { orchStatus := "inactive", running := false,
    tmStatus := "inactive", shStatus := "inactive", uiStatus := "inactive",
    store := store, g := g,
    agents := ["storage_handler", "task_manager", "ui_controller"] }

/-- A console stand-in (the UI controller's behaviour is external to the
verified core); used only to instantiate theorems at concrete inputs. -/
def consoleStub : AgentMessage → Except PyErr AgentResponse :=
  fun m => mkErrorResponse "ui_controller" m.request_id "console unavailable"

/-- A sample uuid source for concrete instantiations. -/
def sampleGen : IdGen := { gen := fun n => "uuid-" ++ toString n, ix := 0 }

/-- A sample task and store for concrete instantiations. -/
def sampleTask : Task :=
  { id := "t1", title := "Buy milk", description := none, status := "pending" }

/-- A sample single-task store. -/
def sampleStore : Store := [("t1", sampleTask)]

/-- The factory state after the caller's `await orchestrator.start()` (the
configuration `app.py` and the integration tests run under). -/
def startedSystem : SysState := orchStart (createOrchestrator sampleStore sampleGen)

/-- A handler that raises, together with a registry holding it, standing for
an arbitrary registered handler whose body faults mid-execution. -/
def boomHandler : TMHandler :=
  fun ctx _ => (ctx, .error (.other "ZeroDivisionError: division by zero"))

/-- A registry binding `"task_boom"` to the faulting handler. -/
def boomActions : String → Option TMHandler :=
  fun a => if a = "task_boom" then some boomHandler else none

/-- An empty task-manager context. -/
def emptyCtx : TMCtx := { g := sampleGen, store := [], sent := [] }

/-- The sub-messages a task-manager call sends to the storage agent, as an
invariant on the recorded trace: each sent message carries the original
`correlation_id` unchanged, names the task manager and the storage handler,
and takes its `request_id` from the uuid generator at a fresh index — the
indices lie in `[lo, hi)` and strictly increase along the trace, so hops
never reuse a draw — and the storage agent's answer, whenever it is a
Response at all, echoes that sub-message's own `request_id`. -/
def ChainOk (corr : String) (gen : Nat → String) : Nat → Nat → Trace → Prop
  | lo, hi, [] => lo ≤ hi
  | lo, hi, (msg, resp) :: rest =>
    ∃ k, lo ≤ k ∧ k < hi ∧
      msg.request_id = gen k ∧
      msg.correlation_id = corr ∧
      msg.sender = "task_manager" ∧
      msg.recipient = "storage_handler" ∧
      (∀ r2, resp = Except.ok r2 → r2.request_id = msg.request_id) ∧
      ChainOk corr gen (k + 1) hi rest

/-- Spec of one task-manager step relative to the incoming context: the
token stream is preserved, the draw index only advances, the recorded trace
grows by a `ChainOk` tail over the fresh index window, and any Response
produced echoes the incoming message's `request_id` naming the task
manager. -/
def HandlerChainSpec (ctx : TMCtx) (m : AgentMessage)
    (out : TMCtx × Except PyErr AgentResponse) : Prop :=
  out.1.g.gen = ctx.g.gen ∧ ctx.g.ix ≤ out.1.g.ix ∧
  (∃ tr, out.1.sent = ctx.sent ++ tr ∧
    ChainOk m.correlation_id ctx.g.gen ctx.g.ix out.1.g.ix tr) ∧
  ∀ r, out.2 = Except.ok r →
    r.request_id = m.request_id ∧ r.sender = "task_manager"

/-- C1, counterexample: an error Response whose `error` is the *empty string*
is accepted by construction — `validate_result_xor_error` only tests
`error is None` — so the claimed "present and non-empty" invariant is not
enforced at construction time. -/
theorem c1_empty_error_accepted :
    mkAgentResponse "r1" "tester" RStatus.error none (some "") =
      .ok { request_id := "r1", sender := "tester", status := RStatus.error,
            result := none, error := some "" } := rfl

/-- C1 (amended): for every constructed Response, `status = success` implies
the error field is absent, and `status = error` implies the error field is
*present* (possibly empty) and the result field is absent; violating either
of these fails at construction time (equivalently: no `.ok` result ever
violates them).  Presence, not non-emptiness, is what construction
enforces. -/
theorem c1_envelope_invariant (request_id sender : String) (status : RStatus)
    (result : Option Value) (error : Option String) (r : AgentResponse)
    (h : mkAgentResponse request_id sender status result error = .ok r) :
    (r.status = RStatus.success → r.error = none) ∧
    (r.status = RStatus.error → r.error ≠ none ∧ r.result = none) := by
  by_cases h1 : request_id = "" <;> by_cases h2 : sender = "" <;>
    cases status <;> cases error <;> cases result <;>
    simp [mkAgentResponse, h1, h2] at h <;>
    (try subst h) <;> simp_all

/-- C1 witness: the invariant evaluated on a concretely constructed error
Response. -/
theorem c1_envelope_invariant_witness :
    (RStatus.error = RStatus.success → (some "boom" : Option String) = none) ∧
    (RStatus.error = RStatus.error →
      (some "boom" : Option String) ≠ none ∧ (none : Option Value) = none) :=
  c1_envelope_invariant "r1" "tester" RStatus.error none (some "boom")
    { request_id := "r1", sender := "tester", status := RStatus.error,
      result := none, error := some "boom" } rfl

/-- C6: starting twice leaves any agent active, stopping twice leaves it
inactive — for the base lifecycle (src/agents/base.py) from every starting
status, and for the orchestrator's overriding `start`/`stop` as well; a
single `start()` on an already-active agent is likewise a no-op
transition. -/
theorem c6_lifecycle_idempotent (a : BaseAgentState) (s : SysState) :
    (baseStart (baseStart a)).status = "active" ∧
    (baseStart a).status = "active" ∧
    (baseStart (baseStart a)) = baseStart a ∧
    (baseStop (baseStop a)).status = "inactive" ∧
    (baseStop (baseStop a)) = baseStop a ∧
    (orchStart (orchStart s)).orchStatus = "active" ∧
    (orchStop (orchStop s)).orchStatus = "inactive" := by
  refine ⟨rfl, rfl, rfl, rfl, rfl, ?_, ?_⟩ <;>
    simp [orchStart, orchStop]

/-- C8: Message construction with an empty or whitespace-only `sender`,
`recipient` or `action` fails with a validation error naming the offending
field (the error text starts with the field's name); when construction
succeeds the three fields are stored stripped and non-empty, and the
remaining fields pass through untouched.  Construction is a pure function
(`mkAgentMessage` is one). -/
theorem c8_message_validation (request_id sender recipient action : String)
    (payload : List (String × Value)) (correlation_id : String) :
    (pyStrip sender = "" →
      ∃ e, mkAgentMessage request_id sender recipient action payload
            correlation_id = .error (.pydanticError e) ∧
          pyStartswith "sender" e = true) ∧
    (pyStrip sender ≠ "" → pyStrip recipient = "" →
      ∃ e, mkAgentMessage request_id sender recipient action payload
            correlation_id = .error (.pydanticError e) ∧
          pyStartswith "recipient" e = true) ∧
    (pyStrip sender ≠ "" → pyStrip recipient ≠ "" → pyStrip action = "" →
      ∃ e, mkAgentMessage request_id sender recipient action payload
            correlation_id = .error (.pydanticError e) ∧
          pyStartswith "action" e = true) ∧
    (∀ m, mkAgentMessage request_id sender recipient action payload
            correlation_id = .ok m →
      m.sender = pyStrip sender ∧ m.recipient = pyStrip recipient ∧
      m.action = pyStrip action ∧ m.sender ≠ "" ∧ m.recipient ≠ "" ∧
      m.action ≠ "" ∧ m.request_id = request_id ∧ m.payload = payload ∧
      m.correlation_id = correlation_id) := by
  have strip_empty : ∀ v : String, v = "" → pyStrip v = "" := by
    intro v h; subst h; rfl
  refine ⟨?_, ?_, ?_, ?_⟩
  · intro hs
    by_cases h0 : sender = ""
    · exact ⟨"sender: string_too_short",
        by simp [mkAgentMessage, validateNonEmpty, h0], by decide⟩
    · exact ⟨"sender: Field cannot be empty or whitespace-only",
        by simp [mkAgentMessage, validateNonEmpty, h0, hs], by decide⟩
  · intro hs hr
    have h0 : sender ≠ "" := fun h => hs (strip_empty _ h)
    by_cases h1 : recipient = ""
    · exact ⟨"recipient: string_too_short",
        by simp [mkAgentMessage, validateNonEmpty, h0, hs, h1], by decide⟩
    · exact ⟨"recipient: Field cannot be empty or whitespace-only",
        by simp [mkAgentMessage, validateNonEmpty, h0, hs, h1, hr], by decide⟩
  · intro hs hr ha
    have h0 : sender ≠ "" := fun h => hs (strip_empty _ h)
    have h1 : recipient ≠ "" := fun h => hr (strip_empty _ h)
    by_cases h2 : action = ""
    · exact ⟨"action: string_too_short",
        by simp [mkAgentMessage, validateNonEmpty, h0, hs, h1, hr, h2], by decide⟩
    · exact ⟨"action: Field cannot be empty or whitespace-only",
        by simp [mkAgentMessage, validateNonEmpty, h0, hs, h1, hr, h2, ha],
        by decide⟩
  · intro m h
    by_cases h0 : sender = "" <;> by_cases h1 : recipient = "" <;>
      by_cases h2 : action = "" <;>
      by_cases hs : pyStrip sender = "" <;> by_cases hr : pyStrip recipient = "" <;>
      by_cases ha : pyStrip action = "" <;>
      simp [mkAgentMessage, validateNonEmpty, h0, h1, h2, hs, hr, ha] at h <;>
      simp_all [← h]

/-- C8 witness: a whitespace-only sender is rejected naming `sender`, and a
fully valid construction stores the stripped fields. -/
theorem c8_message_validation_witness :
    (∃ e, mkAgentMessage "r1" "   " "storage_handler" "task_add" [] "c1" =
        .error (.pydanticError e) ∧ pyStartswith "sender" e = true) ∧
    (∀ m, mkAgentMessage "r1" " client " "storage_handler" "task_add" [] "c1" =
        .ok m →
      m.sender = pyStrip " client " ∧ m.recipient = pyStrip "storage_handler" ∧
      m.action = pyStrip "task_add" ∧ m.sender ≠ "" ∧ m.recipient ≠ "" ∧
      m.action ≠ "" ∧ m.request_id = "r1" ∧
      m.payload = ([] : List (String × Value)) ∧ m.correlation_id = "c1") :=
  ⟨(c8_message_validation "r1" "   " "storage_handler" "task_add" [] "c1").1
      (by decide),
   (c8_message_validation "r1" " client " "storage_handler" "task_add" []
      "c1").2.2.2⟩

/-- C9: `create_orchestrator` registers the storage handler, the task
manager and the UI controller (in that order) into a fresh orchestrator
wired to the given backend — but, contrary to its own docstring
("Returns: Configured and started OrchestratorAgent"), it never calls
`start()`: the returned orchestrator's status is `"inactive"`, `running` is
`False`, and none of the three registered agents has been started. -/
theorem c9_factory_registers_but_does_not_start (store : Store) (g : IdGen) :
    (createOrchestrator store g).agents =
      ["storage_handler", "task_manager", "ui_controller"] ∧
    (createOrchestrator store g).store = store ∧
    (createOrchestrator store g).g = g ∧
    (createOrchestrator store g).orchStatus = "inactive" ∧
    (createOrchestrator store g).running = false ∧
    (createOrchestrator store g).tmStatus = "inactive" ∧
    (createOrchestrator store g).shStatus = "inactive" ∧
    (createOrchestrator store g).uiStatus = "inactive" := by
  refine ⟨rfl, rfl, rfl, rfl, rfl, rfl, rfl, rfl⟩

/-- C2, counterexample: a Message with an unroutable action and an *empty*
`request_id` passes Message validation (the field is unchecked there), yet
`handle_message` raises — building the "Unknown action" error Response
trips `AgentResponse`'s `min_length=1` on `request_id` — instead of
returning.  So "never raises an exception" fails as stated. -/
theorem c2_empty_request_id_raises :
    (mkAgentMessage "" "client" "orchestrator" "bogus_op" [] "c0" =
      .ok { request_id := "", sender := "client", recipient := "orchestrator",
            action := "bogus_op", payload := [], correlation_id := "c0" }) ∧
    (orchHandleMessage consoleStub startedSystem
        { request_id := "", sender := "client", recipient := "orchestrator",
          action := "bogus_op", payload := [], correlation_id := "c0" } =
      (startedSystem, [],
       .error (.pydanticError "request_id: string_too_short"))) :=
  ⟨rfl, rfl⟩

/-- C2 (amended): for every message whose `request_id` is non-empty (always
true of generated ids) and whose action starts with no registered prefix,
`handle_message` returns — never raises — an error Response whose text
contains the action and enumerates the known prefixes, and the system state
is untouched. -/
theorem c2_unknown_action_error (ui : AgentMessage → Except PyErr AgentResponse)
    (s : SysState) (m : AgentMessage)
    (hnone : ∀ pr ∈ ROUTE_PREFIXES, pyStartswith pr.1 m.action = false)
    (hrid : m.request_id ≠ "") :
    orchHandleMessage ui s m =
      (s, [],
       .ok { request_id := m.request_id, sender := "orchestrator",
             status := RStatus.error, result := none,
             error := some ("Unknown action: " ++ m.action ++
               ". Expected prefixes: [\x27task_\x27, \x27storage_\x27, \x27ui_\x27, \x27system_\x27]") }) ∧
    (∃ pre post,
      ("Unknown action: " ++ m.action ++
        ". Expected prefixes: [\x27task_\x27, \x27storage_\x27, \x27ui_\x27, \x27system_\x27]") =
      pre ++ m.action ++ post) := by
  have hfind : ROUTE_PREFIXES.find? (fun pr => pyStartswith pr.1 m.action) = none :=
    List.find?_eq_none.mpr (fun pr hpr => by simp [hnone pr hpr])
  refine ⟨?_,
    ⟨"Unknown action: ",
     ". Expected prefixes: [\x27task_\x27, \x27storage_\x27, \x27ui_\x27, \x27system_\x27]",
     rfl⟩⟩
  simp [orchHandleMessage, getRouteForAction, hfind, mkErrorResponse,
        mkAgentResponse, hrid]

/-- C2 witness: the spec's own example `bogus_op`, with a normal request id,
against the started factory system. -/
theorem c2_unknown_action_error_witness :
    orchHandleMessage consoleStub startedSystem
        { request_id := "r1", sender := "client", recipient := "orchestrator",
          action := "bogus_op", payload := [], correlation_id := "c0" } =
      (startedSystem, [],
       .ok { request_id := "r1", sender := "orchestrator",
             status := RStatus.error, result := none,
             error := some ("Unknown action: " ++ "bogus_op" ++
               ". Expected prefixes: [\x27task_\x27, \x27storage_\x27, \x27ui_\x27, \x27system_\x27]") }) ∧
    (∃ pre post,
      ("Unknown action: " ++ "bogus_op" ++
        ". Expected prefixes: [\x27task_\x27, \x27storage_\x27, \x27ui_\x27, \x27system_\x27]") =
      pre ++ "bogus_op" ++ post) :=
  c2_unknown_action_error consoleStub startedSystem
    { request_id := "r1", sender := "client", recipient := "orchestrator",
      action := "bogus_op", payload := [], correlation_id := "c0" }
    (by decide) (by decide)

/-- C3: for every action matched by at least one prefix, the routing
function returns the agent name bound to the *first* matching entry in the
declaration order of `ROUTE_PREFIXES`; it is a pure function of the action
(the table is never mutated), so the result is independent of call order and
prior calls. -/
theorem c3_route_first_declared_match (action : String) (i : Nat)
    (hi : i < ROUTE_PREFIXES.length)
    (hmatch : pyStartswith (ROUTE_PREFIXES[i]).1 action = true)
    (hbefore : ∀ j (hj : j < i),
      pyStartswith (ROUTE_PREFIXES[j]).1 action = false) :
    getRouteForAction action = some (ROUTE_PREFIXES[i]).2 := by
  have h4 : i < 4 := by simpa [ROUTE_PREFIXES] using hi
  interval_cases i
  · simp only [ROUTE_PREFIXES, List.getElem_cons_zero] at hmatch
    simp [getRouteForAction, ROUTE_PREFIXES, List.find?, hmatch]
  · have h0 := hbefore 0 (by omega)
    simp only [ROUTE_PREFIXES, List.getElem_cons_zero,
      List.getElem_cons_succ] at hmatch h0
    simp [getRouteForAction, ROUTE_PREFIXES, List.find?, hmatch, h0]
  · have h0 := hbefore 0 (by omega)
    have h1 := hbefore 1 (by omega)
    simp only [ROUTE_PREFIXES, List.getElem_cons_zero,
      List.getElem_cons_succ] at hmatch h0 h1
    simp [getRouteForAction, ROUTE_PREFIXES, List.find?, hmatch, h0, h1]
  · have h0 := hbefore 0 (by omega)
    have h1 := hbefore 1 (by omega)
    have h2 := hbefore 2 (by omega)
    simp only [ROUTE_PREFIXES, List.getElem_cons_zero,
      List.getElem_cons_succ] at hmatch h0 h1 h2
    simp [getRouteForAction, ROUTE_PREFIXES, List.find?, hmatch, h0, h1, h2]

/-- C3 witness: `storage_save` matches the second declared entry (and not the
first), so it routes to the storage handler. -/
theorem c3_route_first_declared_match_witness :
    getRouteForAction "storage_save" = some "storage_handler" :=
  c3_route_first_declared_match "storage_save" 1 (by decide) (by decide)
    (by
      intro j hj
      interval_cases j
      simp only [ROUTE_PREFIXES, List.getElem_cons_zero]
      decide)

/-- C7: handling `system_shutdown` flips the orchestrator's `running` flag
to false and returns a success acknowledgement (`{"shutdown": True}`), and
changes nothing else: the resulting state is exactly the old state with
`running := false` — no `stop()` runs, no agent's status field (nor the
orchestrator's own) is modified, and the store and registration table are
untouched. -/
theorem c7_shutdown_flips_running_only
    (ui : AgentMessage → Except PyErr AgentResponse) (s : SysState)
    (m : AgentMessage) (hact : m.action = "system_shutdown")
    (hrid : m.request_id ≠ "") :
    orchHandleMessage ui s m =
      ({ s with running := false }, [],
       .ok { request_id := m.request_id, sender := "orchestrator",
             status := RStatus.success,
             result := some (.dict [("shutdown", .bool true)]),
             error := none }) ∧
    ({ s with running := false } : SysState).orchStatus = s.orchStatus ∧
    ({ s with running := false } : SysState).tmStatus = s.tmStatus ∧
    ({ s with running := false } : SysState).shStatus = s.shStatus ∧
    ({ s with running := false } : SysState).uiStatus = s.uiStatus ∧
    ({ s with running := false } : SysState).store = s.store ∧
    ({ s with running := false } : SysState).agents = s.agents := by
  have hroute : getRouteForAction "system_shutdown" = some "orchestrator" := by
    decide
  refine ⟨?_, rfl, rfl, rfl, rfl, rfl, rfl⟩
  simp [orchHandleMessage, hact, hroute, orchSystemActions, orchHandleShutdown,
        mkSuccessResponse, mkAgentResponse, hrid]

/-- C7 witness: shutting down the started factory system. -/
theorem c7_shutdown_flips_running_only_witness :
    orchHandleMessage consoleStub startedSystem
        { request_id := "r1", sender := "client", recipient := "orchestrator",
          action := "system_shutdown", payload := [], correlation_id := "c0" } =
      ({ startedSystem with running := false }, [],
       .ok { request_id := "r1", sender := "orchestrator",
             status := RStatus.success,
             result := some (.dict [("shutdown", .bool true)]),
             error := none }) :=
  (c7_shutdown_flips_running_only consoleStub startedSystem
    { request_id := "r1", sender := "client", recipient := "orchestrator",
      action := "system_shutdown", payload := [], correlation_id := "c0" }
    rfl (by decide)).1

/-- C4, counterexample: a validly constructed message with an *empty*
`request_id` whose registered handler faults makes `handle_message` itself
raise — the error Response being built in the `except` block trips
`AgentResponse`'s `min_length=1` — so the fault is not contained as
stated. -/
theorem c4_empty_request_id_escapes :
    (mkAgentMessage "" "client" "task_manager" "task_boom" [] "c0" =
      .ok { request_id := "", sender := "client", recipient := "task_manager",
            action := "task_boom", payload := [], correlation_id := "c0" }) ∧
    (tmHandleWith boomActions "active" emptyCtx
        { request_id := "", sender := "client", recipient := "task_manager",
          action := "task_boom", payload := [], correlation_id := "c0" } =
      ("active", emptyCtx,
       .error (.pydanticError "request_id: string_too_short"))) :=
  ⟨rfl, rfl⟩

/-- C4 (amended): for every message with a non-empty `request_id` (always
true of generated ids) whose action has a registered handler, if the handler
raises any fault, `handle_message` still returns a well-formed error
Response whose text carries the fault's message (`str(e)`, under the
boundary's prefixing), the handler's state effects up to the raise are kept,
and the agent's `status` field is unchanged. -/
theorem c4_fault_contained (actions : String → Option TMHandler)
    (status : String) (ctx ctx2 : TMCtx) (m : AgentMessage) (h : TMHandler)
    (e : PyErr) (hreg : actions m.action = some h)
    (hraise : h ctx m = (ctx2, .error e)) (hrid : m.request_id ≠ "") :
    ∃ msg, tmHandleWith actions status ctx m =
        (status, ctx2,
         .ok { request_id := m.request_id, sender := "task_manager",
               status := RStatus.error, result := none, error := some msg }) ∧
      ∃ pre, msg = pre ++ pyErrStr e := by
  cases e with
  | validationError msg =>
    exact ⟨msg, by simp [tmHandleWith, hreg, hraise, tmTranslate,
      mkErrorResponse, mkAgentResponse, hrid], "", by simp [pyErrStr]⟩
  | notFoundError msg =>
    exact ⟨msg, by simp [tmHandleWith, hreg, hraise, tmTranslate,
      mkErrorResponse, mkAgentResponse, hrid], "", by simp [pyErrStr]⟩
  | storageError msg =>
    exact ⟨"Internal error: " ++ msg, by simp [tmHandleWith, hreg, hraise,
      tmTranslate, mkErrorResponse, mkAgentResponse, hrid, pyErrStr],
      "Internal error: ", by simp [pyErrStr]⟩
  | pydanticError msg =>
    exact ⟨"Internal error: " ++ msg, by simp [tmHandleWith, hreg, hraise,
      tmTranslate, mkErrorResponse, mkAgentResponse, hrid, pyErrStr],
      "Internal error: ", by simp [pyErrStr]⟩
  | other msg =>
    exact ⟨"Internal error: " ++ msg, by simp [tmHandleWith, hreg, hraise,
      tmTranslate, mkErrorResponse, mkAgentResponse, hrid, pyErrStr],
      "Internal error: ", by simp [pyErrStr]⟩

/-- C4 witness: a registered handler that raises a `ZeroDivisionError`
mid-execution is translated into an `"Internal error: ..."` Response. -/
theorem c4_fault_contained_witness :
    ∃ msg, tmHandleWith boomActions "active" emptyCtx
        { request_id := "r1", sender := "client", recipient := "task_manager",
          action := "task_boom", payload := [], correlation_id := "c0" } =
        ("active", emptyCtx,
         .ok { request_id := "r1", sender := "task_manager",
               status := RStatus.error, result := none, error := some msg }) ∧
      ∃ pre, msg = pre ++ pyErrStr (.other "ZeroDivisionError: division by zero") :=
  c4_fault_contained boomActions "active" emptyCtx emptyCtx
    { request_id := "r1", sender := "client", recipient := "task_manager",
      action := "task_boom", payload := [], correlation_id := "c0" }
    boomHandler (.other "ZeroDivisionError: division by zero")
    rfl rfl (by decide)

/-- Helper: a constructed Response echoes the `request_id` and `sender` it
was built with. -/
theorem mkAgentResponse_ok (request_id sender : String) (status : RStatus)
    (result : Option Value) (error : Option String) (r : AgentResponse)
    (h : mkAgentResponse request_id sender status result error = .ok r) :
    r.request_id = request_id ∧ r.sender = sender := by
  by_cases h1 : request_id = "" <;> by_cases h2 : sender = "" <;>
    cases status <;> cases error <;> cases result <;>
    simp [mkAgentResponse, h1, h2] at h <;>
    (try subst h) <;> simp_all

/-- Helper: `_create_error_response` echoes its arguments. -/
theorem mkErrorResponse_ok (sender request_id error : String)
    (r : AgentResponse) (h : mkErrorResponse sender request_id error = .ok r) :
    r.request_id = request_id ∧ r.sender = sender :=
  mkAgentResponse_ok request_id sender .error none (some error) r h

/-- Helper: `_create_success_response` echoes its arguments. -/
theorem mkSuccessResponse_ok (sender request_id : String)
    (result : Option Value) (r : AgentResponse)
    (h : mkSuccessResponse sender request_id result = .ok r) :
    r.request_id = request_id ∧ r.sender = sender :=
  mkAgentResponse_ok request_id sender .success result none r h

/-- Helper: the storage boundary's `except` translation, when it yields a
Response at all, echoes the request id it was given. -/
theorem storageTranslate_ok (request_id : String) (e : PyErr)
    (r : AgentResponse) (h : storageTranslate request_id e = .ok r) :
    r.request_id = request_id ∧ r.sender = "storage_handler" := by
  cases e <;> exact mkErrorResponse_ok _ _ _ _ h

/-- Helper: the task-manager boundary's `except` translation, when it yields
a Response at all, echoes the request id it was given. -/
theorem tmTranslate_ok (request_id : String) (e : PyErr) (r : AgentResponse)
    (h : tmTranslate request_id e = .ok r) :
    r.request_id = request_id ∧ r.sender = "task_manager" := by
  cases e <;> exact mkErrorResponse_ok _ _ _ _ h

/-- Helper: `Task` construction draws at most fresh tokens from the
generator — it never changes the token stream and never rewinds the
index. -/
theorem mkTask_gen (g : IdGen) (id title description status : Option Value) :
    (mkTask g id title description status).1.gen = g.gen ∧
    g.ix ≤ (mkTask g id title description status).1.ix := by
  rcases id with _ | v
  · simp only [mkTask, IdGen.fresh]
    repeat' split
    all_goals
      first
        | exact ⟨rfl, Nat.le_succ _⟩
        | exact ⟨rfl, Nat.le_refl _⟩
        | simp_all
  · cases v <;> simp only [mkTask, IdGen.fresh] <;> repeat' split
    all_goals
      first
        | exact ⟨rfl, Nat.le_refl _⟩
        | exact ⟨rfl, Nat.le_succ _⟩
        | simp_all

/-- Helper: likewise for `Task(**value)`. -/
theorem taskOfValue_gen (g : IdGen) (v : Value) :
    (taskOfValue g v).1.gen = g.gen ∧ g.ix ≤ (taskOfValue g v).1.ix := by
  cases v <;> simp [taskOfValue] <;>
    exact (mkTask_gen g _ _ _ _)

/-- Helper: `mkTask_gen` in the destructured form the handlers match on. -/
theorem mkTask_gen2 (g g2 : IdGen) (id title description status : Option Value)
    (e : Except PyErr Task)
    (h : mkTask g id title description status = (g2, e)) :
    g2.gen = g.gen ∧ g.ix ≤ g2.ix := by
  have hg := mkTask_gen g id title description status
  rw [h] at hg
  exact hg

/-- Helper: the storage agent's `try/except` wrapper keeps the generator and
store of the handler's outcome, and any Response it produces out of a raise
echoes the request id. -/
theorem shWrap_spec (request_id : String) (g : IdGen) (store : Store)
    (e : Except PyErr AgentResponse)
    (hecho : ∀ r2, e = .ok r2 →
      r2.request_id = request_id ∧ r2.sender = "storage_handler") :
    ∃ resp, shWrap request_id (g, store, e) = (g, store, resp) ∧
      ∀ r2, resp = .ok r2 →
        r2.request_id = request_id ∧ r2.sender = "storage_handler" := by
  cases e with
  | ok r => exact ⟨.ok r, rfl, hecho⟩
  | error err =>
    exact ⟨storageTranslate request_id err, rfl,
      fun r2 h => storageTranslate_ok request_id err r2 h⟩

/-- Helper: combining a handler outcome's spec with the `try/except`
wrapper. -/
theorem wrap_handler_spec (m : AgentMessage) (g : IdGen)
    (t : IdGen × Store × Except PyErr AgentResponse)
    (hspec : t.1.gen = g.gen ∧ g.ix ≤ t.1.ix ∧
      ∀ r2, t.2.2 = .ok r2 →
        r2.request_id = m.request_id ∧ r2.sender = "storage_handler") :
    (shWrap m.request_id t).1.gen = g.gen ∧
    g.ix ≤ (shWrap m.request_id t).1.ix ∧
    ∀ r2, (shWrap m.request_id t).2.2 = .ok r2 →
      r2.request_id = m.request_id ∧ r2.sender = "storage_handler" := by
  rcases t with ⟨g2, st2, e⟩
  obtain ⟨resp, hw, hwe⟩ := shWrap_spec m.request_id g2 st2 e hspec.2.2
  rw [hw]
  exact ⟨hspec.1, hspec.2.1, hwe⟩

/-- Helper: `_handle_save`'s outcome spec (generator preserved modulo fresh
draws, Responses echo the request id). -/
theorem shHandleSave_spec (g : IdGen) (store : Store) (m : AgentMessage) :
    (shHandleSave g store m).1.gen = g.gen ∧
    g.ix ≤ (shHandleSave g store m).1.ix ∧
    ∀ r2, (shHandleSave g store m).2.2 = .ok r2 →
      r2.request_id = m.request_id ∧ r2.sender = "storage_handler" := by
  unfold shHandleSave
  cases htd : pyGet m.payload "task" with
  | none => exact ⟨rfl, Nat.le_refl _, fun r2 h => mkErrorResponse_ok _ _ _ _ h⟩
  | some td =>
    cases td
    case dict kvs =>
      dsimp only
      rcases hmk : mkTask g (pyGet kvs "id") (pyGet kvs "title")
          (pyGet kvs "description") (pyGet kvs "status") with ⟨g2, et⟩
      have hg := mkTask_gen2 _ _ _ _ _ _ _ hmk
      cases et with
      | error e => exact ⟨hg.1, hg.2, fun r2 h => Except.noConfusion h⟩
      | ok t => exact ⟨hg.1, hg.2, fun r2 h => mkSuccessResponse_ok _ _ _ _ h⟩
    case task id title description status =>
      exact ⟨rfl, Nat.le_refl _, fun r2 h => mkSuccessResponse_ok _ _ _ _ h⟩
    all_goals
      exact ⟨rfl, Nat.le_refl _, fun r2 h => mkErrorResponse_ok _ _ _ _ h⟩

/-- Helper: `_handle_update`'s outcome spec. -/
theorem shHandleUpdate_spec (g : IdGen) (store : Store) (m : AgentMessage) :
    (shHandleUpdate g store m).1.gen = g.gen ∧
    g.ix ≤ (shHandleUpdate g store m).1.ix ∧
    ∀ r2, (shHandleUpdate g store m).2.2 = .ok r2 →
      r2.request_id = m.request_id ∧ r2.sender = "storage_handler" := by
  unfold shHandleUpdate
  cases htd : pyGet m.payload "task" with
  | none => exact ⟨rfl, Nat.le_refl _, fun r2 h => mkErrorResponse_ok _ _ _ _ h⟩
  | some td =>
    cases td
    case dict kvs =>
      dsimp only
      rcases hmk : mkTask g (pyGet kvs "id") (pyGet kvs "title")
          (pyGet kvs "description") (pyGet kvs "status") with ⟨g2, et⟩
      have hg := mkTask_gen2 _ _ _ _ _ _ _ hmk
      cases et with
      | error e => exact ⟨hg.1, hg.2, fun r2 h => Except.noConfusion h⟩
      | ok t =>
        dsimp only
        cases hbu : backendUpdate store t with
        | error e => exact ⟨hg.1, hg.2, fun r2 h => Except.noConfusion h⟩
        | ok st2 =>
          exact ⟨hg.1, hg.2, fun r2 h => mkSuccessResponse_ok _ _ _ _ h⟩
    case task id title description status =>
      dsimp only
      cases hbu : backendUpdate store
          { id := id, title := title, description := description,
            status := status } with
      | error e => exact ⟨rfl, Nat.le_refl _, fun r2 h => Except.noConfusion h⟩
      | ok st2 =>
        exact ⟨rfl, Nat.le_refl _, fun r2 h => mkSuccessResponse_ok _ _ _ _ h⟩
    all_goals
      exact ⟨rfl, Nat.le_refl _, fun r2 h => mkErrorResponse_ok _ _ _ _ h⟩

/-- Helper: every storage-handler action preserves the token stream, only
advances the draw index, and every Response it returns echoes the incoming
message's `request_id` and names the storage handler. -/
theorem storageHandle_spec (g : IdGen) (store : Store) (m : AgentMessage) :
    (storageHandleMessage g store m).1.gen = g.gen ∧
    g.ix ≤ (storageHandleMessage g store m).1.ix ∧
    ∀ r2, (storageHandleMessage g store m).2.2 = .ok r2 →
      r2.request_id = m.request_id ∧ r2.sender = "storage_handler" := by
  unfold storageHandleMessage
  split
  · exact wrap_handler_spec m g _ (shHandleSave_spec g store m)
  · -- storage_get
    refine wrap_handler_spec m g _ ?_
    unfold shHandleGet
    repeat' split
    all_goals
      first
        | exact ⟨rfl, Nat.le_refl _, fun r2 h => mkErrorResponse_ok _ _ _ _ h⟩
        | exact ⟨rfl, Nat.le_refl _, fun r2 h => mkSuccessResponse_ok _ _ _ _ h⟩
  · -- storage_get_all
    exact wrap_handler_spec m g _
      ⟨rfl, Nat.le_refl _, fun r2 h => mkSuccessResponse_ok _ _ _ _ h⟩
  · exact wrap_handler_spec m g _ (shHandleUpdate_spec g store m)
  · -- storage_delete
    refine wrap_handler_spec m g _ ?_
    unfold shHandleDelete
    repeat' split
    all_goals
      first
        | exact ⟨rfl, Nat.le_refl _, fun r2 h => mkErrorResponse_ok _ _ _ _ h⟩
        | exact ⟨rfl, Nat.le_refl _, fun r2 h => mkSuccessResponse_ok _ _ _ _ h⟩
  · -- storage_query
    exact wrap_handler_spec m g _
      ⟨rfl, Nat.le_refl _, fun r2 h => mkSuccessResponse_ok _ _ _ _ h⟩
  · -- storage_clear
    refine wrap_handler_spec m g _ ?_
    unfold shHandleClear
    repeat' split
    exact ⟨rfl, Nat.le_refl _, fun r2 h => mkSuccessResponse_ok _ _ _ _ h⟩
  · -- unknown storage action
    exact ⟨rfl, Nat.le_refl _, fun r2 h => mkErrorResponse_ok _ _ _ _ h⟩

/-- Helper: `taskOfValue_gen` in destructured form. -/
theorem taskOfValue_gen2 (g g2 : IdGen) (v : Value) (e : Except PyErr Task)
    (h : taskOfValue g v = (g2, e)) : g2.gen = g.gen ∧ g.ix ≤ g2.ix := by
  have hg := taskOfValue_gen g v
  rw [h] at hg
  exact hg

/-- Helper: `_send_to_storage` records exactly one sub-message, built with
the next generator token as `request_id` and the given `correlation_id`,
addressed from the task manager to the storage handler; the storage agent's
answer (recorded alongside) echoes that sub-message's `request_id` whenever
it is a Response; the token stream is preserved and the index strictly
advances. -/
theorem sendToStorage_chain (ctx : TMCtx) (action : String)
    (payload : List (String × Value)) (corr : String)
    (hmk : mkAgentMessage (ctx.g.gen ctx.g.ix) "task_manager"
        "storage_handler" action payload corr =
      .ok { request_id := ctx.g.gen ctx.g.ix, sender := "task_manager",
            recipient := "storage_handler", action := action,
            payload := payload, correlation_id := corr }) :
    ∃ ctx2 resp msg,
      sendToStorage ctx action payload corr = (ctx2, resp) ∧
      ctx2.g.gen = ctx.g.gen ∧ ctx.g.ix < ctx2.g.ix ∧
      ctx2.sent = ctx.sent ++ [(msg, resp)] ∧
      msg.request_id = ctx.g.gen ctx.g.ix ∧
      msg.correlation_id = corr ∧
      msg.sender = "task_manager" ∧ msg.recipient = "storage_handler" ∧
      (∀ r2, resp = .ok r2 → r2.request_id = msg.request_id) := by
  unfold sendToStorage IdGen.fresh
  dsimp only
  rw [hmk]
  dsimp only
  rcases hsh : storageHandleMessage { gen := ctx.g.gen, ix := ctx.g.ix + 1 }
      ctx.store
      { request_id := ctx.g.gen ctx.g.ix, sender := "task_manager",
        recipient := "storage_handler", action := action,
        payload := payload, correlation_id := corr } with ⟨g2, st2, resp⟩
  have hspec := storageHandle_spec { gen := ctx.g.gen, ix := ctx.g.ix + 1 }
      ctx.store
      { request_id := ctx.g.gen ctx.g.ix, sender := "task_manager",
        recipient := "storage_handler", action := action,
        payload := payload, correlation_id := corr }
  rw [hsh] at hspec
  refine ⟨{ g := g2, store := st2,
            sent := ctx.sent ++
              [({ request_id := ctx.g.gen ctx.g.ix, sender := "task_manager",
                  recipient := "storage_handler", action := action,
                  payload := payload, correlation_id := corr }, resp)] },
    resp, _, rfl, hspec.1, Nat.lt_of_lt_of_le (Nat.lt_succ_self _) hspec.2.1,
    rfl, rfl, rfl, rfl, rfl, fun r2 h => (hspec.2.2 r2 h).1⟩

/-- Helper: `ChainOk` is monotone in the upper index bound. -/
theorem ChainOk_mono (corr : String) (gen : Nat → String) :
    ∀ (tr : Trace) (lo hi hi2 : Nat), ChainOk corr gen lo hi tr → hi ≤ hi2 →
      ChainOk corr gen lo hi2 tr
  | [], _, _, _, h, hle => Nat.le_trans h hle
  | (_, _) :: rest, lo, hi, hi2, h, hle => by
    obtain ⟨k, hk1, hk2, h3, h4, h5, h6, h7, h8⟩ := h
    exact ⟨k, hk1, Nat.lt_of_lt_of_le hk2 hle, h3, h4, h5, h6, h7,
      ChainOk_mono corr gen rest (k + 1) hi hi2 h8 hle⟩

/-- Helper: what `ChainOk` says about each recorded sub-message. -/
theorem ChainOk_mem (corr : String) (gen : Nat → String) :
    ∀ (tr : Trace) (lo hi : Nat), ChainOk corr gen lo hi tr →
      ∀ p ∈ tr,
        (∃ k, lo ≤ k ∧ k < hi ∧ p.1.request_id = gen k) ∧
        p.1.correlation_id = corr ∧ p.1.sender = "task_manager" ∧
        p.1.recipient = "storage_handler" ∧
        ∀ r2, p.2 = Except.ok r2 → r2.request_id = p.1.request_id
  | [], _, _, _, p, hp => absurd hp (List.not_mem_nil p)
  | (msg, resp) :: rest, lo, hi, h, p, hp => by
    obtain ⟨k, hk1, hk2, h3, h4, h5, h6, h7, h8⟩ := h
    rcases List.mem_cons.mp hp with hphead | hptail
    · subst hphead
      exact ⟨⟨k, hk1, hk2, h3⟩, h4, h5, h6, h7⟩
    · obtain ⟨⟨k2, hk21, hk22, hh⟩, rest⟩ :=
        ChainOk_mem corr gen rest (k + 1) hi h8 p hptail
      exact ⟨⟨k2, Nat.le_trans hk1 (Nat.le_trans (Nat.le_succ k) hk21),
        hk22, hh⟩, rest⟩

/-- Helper: hop request ids are pairwise distinct whenever the generator is
injective on the window, since `ChainOk` uses strictly increasing draw
indices. -/
theorem ChainOk_pairwise (corr : String) (gen : Nat → String) (lo0 : Nat)
    (hinj : ∀ k l, lo0 ≤ k → lo0 ≤ l → gen k = gen l → k = l) :
    ∀ (tr : Trace) (lo hi : Nat), lo0 ≤ lo → ChainOk corr gen lo hi tr →
      tr.Pairwise (fun p q => p.1.request_id ≠ q.1.request_id)
  | [], _, _, _, _ => List.Pairwise.nil
  | (msg, resp) :: rest, lo, hi, hlo, h => by
    obtain ⟨k, hk1, hk2, h3, h4, h5, h6, h7, h8⟩ := h
    refine List.Pairwise.cons ?_
      (ChainOk_pairwise corr gen lo0 hinj rest (k + 1) hi
        (Nat.le_trans hlo (Nat.le_trans hk1 (Nat.le_succ k))) h8)
    intro q hq hne
    obtain ⟨⟨k2, hk21, hk22, hh⟩, _⟩ :=
      ChainOk_mem corr gen rest (k + 1) hi h8 q hq
    have : k = k2 := by
      apply hinj k k2 (Nat.le_trans hlo hk1)
        (Nat.le_trans hlo (Nat.le_trans hk1 (Nat.le_trans (Nat.le_succ k) hk21)))
      rw [← h3, ← hh, hne]
    omega

/-- Helper: a handler leaf that sent nothing and left the generator alone. -/
theorem leaf_spec (ctx : TMCtx) (m : AgentMessage)
    (e : Except PyErr AgentResponse)
    (hech : ∀ r, e = Except.ok r →
      r.request_id = m.request_id ∧ r.sender = "task_manager") :
    HandlerChainSpec ctx m (ctx, e) :=
  ⟨rfl, Nat.le_refl _, ⟨[], by simp, Nat.le_refl _⟩, hech⟩

/-- Helper: a handler leaf that sent nothing but drew fresh tokens (for
`Task` construction). -/
theorem leaf_adv_spec (ctx : TMCtx) (m : AgentMessage) (g2 : IdGen)
    (e : Except PyErr AgentResponse)
    (hgen : g2.gen = ctx.g.gen) (hix : ctx.g.ix ≤ g2.ix)
    (hech : ∀ r, e = Except.ok r →
      r.request_id = m.request_id ∧ r.sender = "task_manager") :
    HandlerChainSpec ctx m ({ ctx with g := g2 }, e) :=
  ⟨hgen, hix, ⟨[], by simp, hix⟩, hech⟩

/-- Helper: a handler that drew tokens (possibly none: `g1 := ctx.g`), then
sent one sub-message and finished. -/
theorem after_send_spec (ctx : TMCtx) (m : AgentMessage) (g1 : IdGen)
    (ctx2 : TMCtx) (resp : Except PyErr AgentResponse) (msg : AgentMessage)
    (hgen1 : g1.gen = ctx.g.gen) (hix1 : ctx.g.ix ≤ g1.ix)
    (hgen : ctx2.g.gen = g1.gen) (hix : g1.ix < ctx2.g.ix)
    (hsent : ctx2.sent = ctx.sent ++ [(msg, resp)])
    (hm1 : msg.request_id = g1.gen g1.ix)
    (hm2 : msg.correlation_id = m.correlation_id)
    (hm3 : msg.sender = "task_manager")
    (hm4 : msg.recipient = "storage_handler")
    (hre : ∀ r2, resp = Except.ok r2 → r2.request_id = msg.request_id)
    (e : Except PyErr AgentResponse)
    (hech : ∀ r, e = Except.ok r →
      r.request_id = m.request_id ∧ r.sender = "task_manager") :
    HandlerChainSpec ctx m (ctx2, e) := by
  refine ⟨hgen.trans hgen1, Nat.le_trans hix1 (Nat.le_of_lt hix),
    ⟨[(msg, resp)], hsent, ?_⟩, hech⟩
  exact ⟨g1.ix, hix1, hix, by rw [hm1, hgen1], hm2, hm3, hm4, hre, hix⟩

/-- Helper: a handler that sent one sub-message, then drew tokens, then
finished without a second send. -/
theorem after_send_adv_leaf_spec (ctx : TMCtx) (m : AgentMessage)
    (ctx1 : TMCtx) (resp1 : Except PyErr AgentResponse) (msg1 : AgentMessage)
    (g2 : IdGen) (e : Except PyErr AgentResponse)
    (hgen1 : ctx1.g.gen = ctx.g.gen) (hix1 : ctx.g.ix < ctx1.g.ix)
    (hsent1 : ctx1.sent = ctx.sent ++ [(msg1, resp1)])
    (hm1 : msg1.request_id = ctx.g.gen ctx.g.ix)
    (hm2 : msg1.correlation_id = m.correlation_id)
    (hm3 : msg1.sender = "task_manager")
    (hm4 : msg1.recipient = "storage_handler")
    (hre : ∀ r2, resp1 = Except.ok r2 → r2.request_id = msg1.request_id)
    (hgen2 : g2.gen = ctx1.g.gen) (hix2 : ctx1.g.ix ≤ g2.ix)
    (hech : ∀ r, e = Except.ok r →
      r.request_id = m.request_id ∧ r.sender = "task_manager") :
    HandlerChainSpec ctx m ({ ctx1 with g := g2 }, e) := by
  refine ⟨hgen2.trans hgen1, Nat.le_trans (Nat.le_of_lt hix1) hix2,
    ⟨[(msg1, resp1)], hsent1, ?_⟩, hech⟩
  exact ⟨ctx.g.ix, Nat.le_refl _, Nat.lt_of_lt_of_le hix1 hix2, hm1, hm2,
    hm3, hm4, hre, Nat.le_trans hix1 hix2⟩

/-- Helper: a handler that sent one sub-message, drew tokens, then sent a
second sub-message — the two-hop case (`task_complete`, `task_update`). -/
theorem after_two_sends_spec (ctx : TMCtx) (m : AgentMessage)
    (ctx1 : TMCtx) (msg1 : AgentMessage) (resp1 : Except PyErr AgentResponse)
    (g2 : IdGen) (ctx2 : TMCtx) (msg2 : AgentMessage)
    (resp2 : Except PyErr AgentResponse) (e : Except PyErr AgentResponse)
    (hgen1 : ctx1.g.gen = ctx.g.gen) (hix1 : ctx.g.ix < ctx1.g.ix)
    (hsent1 : ctx1.sent = ctx.sent ++ [(msg1, resp1)])
    (hm11 : msg1.request_id = ctx.g.gen ctx.g.ix)
    (hm12 : msg1.correlation_id = m.correlation_id)
    (hm13 : msg1.sender = "task_manager")
    (hm14 : msg1.recipient = "storage_handler")
    (hre1 : ∀ r2, resp1 = Except.ok r2 → r2.request_id = msg1.request_id)
    (hgen2 : g2.gen = ctx1.g.gen) (hix2 : ctx1.g.ix ≤ g2.ix)
    (hgen3 : ctx2.g.gen = g2.gen) (hix3 : g2.ix < ctx2.g.ix)
    (hsent2 : ctx2.sent = ctx1.sent ++ [(msg2, resp2)])
    (hm21 : msg2.request_id = g2.gen g2.ix)
    (hm22 : msg2.correlation_id = m.correlation_id)
    (hm23 : msg2.sender = "task_manager")
    (hm24 : msg2.recipient = "storage_handler")
    (hre2 : ∀ r2, resp2 = Except.ok r2 → r2.request_id = msg2.request_id)
    (hech : ∀ r, e = Except.ok r →
      r.request_id = m.request_id ∧ r.sender = "task_manager") :
    HandlerChainSpec ctx m (ctx2, e) := by
  refine ⟨(hgen3.trans hgen2).trans hgen1,
    Nat.le_trans (Nat.le_of_lt hix1) (Nat.le_trans hix2 (Nat.le_of_lt hix3)),
    ⟨[(msg1, resp1), (msg2, resp2)], ?_, ?_⟩, hech⟩
  · rw [hsent2, hsent1, List.append_assoc]
    rfl
  · refine ⟨ctx.g.ix, Nat.le_refl _,
      Nat.lt_of_lt_of_le hix1 (Nat.le_trans hix2 (Nat.le_of_lt hix3)),
      hm11, hm12, hm13, hm14, hre1,
      g2.ix, Nat.le_trans hix1 hix2, hix3,
      by rw [hm21, hgen2, hgen1], hm22, hm23, hm24, hre2, hix3⟩

/-- Helper: `_handle_list` satisfies the chain spec. -/
theorem tmHandleList_chain (ctx : TMCtx) (m : AgentMessage) :
    HandlerChainSpec ctx m (tmHandleList ctx m) := by
  unfold tmHandleList
  obtain ⟨ctx2, resp, msg, hsend, hgen, hix, hsent, hm1, hm2, hm3, hm4, hre⟩ :=
    sendToStorage_chain ctx "storage_query"
      [("status", (pyGet m.payload "status").getD Value.null)]
      m.correlation_id rfl
  rw [hsend]
  cases resp with
  | error e =>
    exact after_send_spec ctx m ctx.g ctx2 (.error e) msg rfl (Nat.le_refl _)
      hgen hix hsent hm1 hm2 hm3 hm4 hre _ (fun r hr => Except.noConfusion hr)
  | ok r =>
    dsimp only
    split
    · exact after_send_spec ctx m ctx.g ctx2 (.ok r) msg rfl (Nat.le_refl _)
        hgen hix hsent hm1 hm2 hm3 hm4 hre _
        (fun r2 h => mkErrorResponse_ok _ _ _ _ h)
    · exact after_send_spec ctx m ctx.g ctx2 (.ok r) msg rfl (Nat.le_refl _)
        hgen hix hsent hm1 hm2 hm3 hm4 hre _
        (fun r2 h => mkSuccessResponse_ok _ _ _ _ h)

/-- Helper: `_handle_get` satisfies the chain spec. -/
theorem tmHandleGet_chain (ctx : TMCtx) (m : AgentMessage) :
    HandlerChainSpec ctx m (tmHandleGet ctx m) := by
  unfold tmHandleGet
  cases hv : pyGet m.payload "task_id" with
  | none => exact leaf_spec ctx m _ (fun r h => mkErrorResponse_ok _ _ _ _ h)
  | some v =>
    dsimp only
    split
    · obtain ⟨ctx2, resp, msg, hsend, hgen, hix, hsent, hm1, hm2, hm3, hm4, hre⟩ :=
        sendToStorage_chain ctx "storage_get" [("task_id", v)]
          m.correlation_id rfl
      rw [hsend]
      cases resp with
      | error e =>
        exact after_send_spec ctx m ctx.g ctx2 (.error e) msg rfl (Nat.le_refl _)
          hgen hix hsent hm1 hm2 hm3 hm4 hre _
          (fun r hr => Except.noConfusion hr)
      | ok r =>
        dsimp only
        split
        · exact after_send_spec ctx m ctx.g ctx2 (.ok r) msg rfl (Nat.le_refl _)
            hgen hix hsent hm1 hm2 hm3 hm4 hre _
            (fun r2 h => mkErrorResponse_ok _ _ _ _ h)
        · exact after_send_spec ctx m ctx.g ctx2 (.ok r) msg rfl (Nat.le_refl _)
            hgen hix hsent hm1 hm2 hm3 hm4 hre _
            (fun r2 h => mkSuccessResponse_ok _ _ _ _ h)
    · exact leaf_spec ctx m _ (fun r h => mkErrorResponse_ok _ _ _ _ h)

/-- Helper: `_handle_delete` satisfies the chain spec. -/
theorem tmHandleDelete_chain (ctx : TMCtx) (m : AgentMessage) :
    HandlerChainSpec ctx m (tmHandleDelete ctx m) := by
  unfold tmHandleDelete
  cases hv : pyGet m.payload "task_id" with
  | none => exact leaf_spec ctx m _ (fun r h => mkErrorResponse_ok _ _ _ _ h)
  | some v =>
    dsimp only
    split
    · obtain ⟨ctx2, resp, msg, hsend, hgen, hix, hsent, hm1, hm2, hm3, hm4, hre⟩ :=
        sendToStorage_chain ctx "storage_delete" [("task_id", v)]
          m.correlation_id rfl
      rw [hsend]
      cases resp with
      | error e =>
        exact after_send_spec ctx m ctx.g ctx2 (.error e) msg rfl (Nat.le_refl _)
          hgen hix hsent hm1 hm2 hm3 hm4 hre _
          (fun r hr => Except.noConfusion hr)
      | ok r =>
        dsimp only
        repeat' split
        all_goals
          first
            | exact after_send_spec ctx m ctx.g ctx2 (.ok r) msg rfl
                (Nat.le_refl _) hgen hix hsent hm1 hm2 hm3 hm4 hre _
                (fun r2 h => mkErrorResponse_ok _ _ _ _ h)
            | exact after_send_spec ctx m ctx.g ctx2 (.ok r) msg rfl
                (Nat.le_refl _) hgen hix hsent hm1 hm2 hm3 hm4 hre _
                (fun r2 h => mkSuccessResponse_ok _ _ _ _ h)
            | exact after_send_spec ctx m ctx.g ctx2 (.ok r) msg rfl
                (Nat.le_refl _) hgen hix hsent hm1 hm2 hm3 hm4 hre _
                (fun r2 h => Except.noConfusion h)
    · exact leaf_spec ctx m _ (fun r h => mkErrorResponse_ok _ _ _ _ h)

/-- Helper: `_handle_add` satisfies the chain spec. -/
theorem tmHandleAdd_chain (ctx : TMCtx) (m : AgentMessage) :
    HandlerChainSpec ctx m (tmHandleAdd ctx m) := by
  unfold tmHandleAdd
  cases hv : pyGet m.payload "title" with
  | none => exact leaf_spec ctx m _ (fun r h => mkErrorResponse_ok _ _ _ _ h)
  | some title =>
    dsimp only
    split
    · rcases hmk : mkTask ctx.g none (some title)
          (pyGet m.payload "description") none with ⟨g1, et⟩
      have hg := mkTask_gen2 _ _ _ _ _ _ _ hmk
      cases et with
      | error e =>
        exact leaf_adv_spec ctx m g1 _ hg.1 hg.2
          (fun r h => Except.noConfusion h)
      | ok task =>
        dsimp only
        obtain ⟨ctx2, resp, msg, hsend, hgen, hix, hsent, hm1, hm2, hm3, hm4,
            hre⟩ :=
          sendToStorage_chain { ctx with g := g1 } "storage_save"
            [("task", taskDump task)] m.correlation_id rfl
        rw [hsend]
        cases resp with
        | error e =>
          exact after_send_spec ctx m g1 ctx2 (.error e) msg hg.1 hg.2
            hgen hix hsent hm1 hm2 hm3 hm4 hre _
            (fun r hr => Except.noConfusion hr)
        | ok r =>
          dsimp only
          split
          · exact after_send_spec ctx m g1 ctx2 (.ok r) msg hg.1 hg.2
              hgen hix hsent hm1 hm2 hm3 hm4 hre _
              (fun r2 h => mkErrorResponse_ok _ _ _ _ h)
          · exact after_send_spec ctx m g1 ctx2 (.ok r) msg hg.1 hg.2
              hgen hix hsent hm1 hm2 hm3 hm4 hre _
              (fun r2 h => mkSuccessResponse_ok _ _ _ _ h)
    · exact leaf_spec ctx m _ (fun r h => mkErrorResponse_ok _ _ _ _ h)

/-- Helper: `_handle_complete` — a two-hop chain (`storage_get`, then
`storage_update`) — satisfies the chain spec. -/
theorem tmHandleComplete_chain (ctx : TMCtx) (m : AgentMessage) :
    HandlerChainSpec ctx m (tmHandleComplete ctx m) := by
  unfold tmHandleComplete
  cases hv : pyGet m.payload "task_id" with
  | none => exact leaf_spec ctx m _ (fun r h => mkErrorResponse_ok _ _ _ _ h)
  | some v =>
    dsimp only
    split
    · obtain ⟨ctx1, resp1, msg1, hsend1, hgen1, hix1, hsent1, h11, h12, h13,
          h14, hre1⟩ :=
        sendToStorage_chain ctx "storage_get" [("task_id", v)]
          m.correlation_id rfl
      rw [hsend1]
      cases resp1 with
      | error e =>
        exact after_send_spec ctx m ctx.g ctx1 (.error e) msg1 rfl
          (Nat.le_refl _) hgen1 hix1 hsent1 h11 h12 h13 h14 hre1 _
          (fun r hr => Except.noConfusion hr)
      | ok gr =>
        dsimp only
        split
        · exact after_send_spec ctx m ctx.g ctx1 (.ok gr) msg1 rfl
            (Nat.le_refl _) hgen1 hix1 hsent1 h11 h12 h13 h14 hre1 _
            (fun r2 h => mkErrorResponse_ok _ _ _ _ h)
        · cases hrt : resultTask gr.result with
          | error e =>
            exact after_send_spec ctx m ctx.g ctx1 (.ok gr) msg1 rfl
              (Nat.le_refl _) hgen1 hix1 hsent1 h11 h12 h13 h14 hre1 _
              (fun r hr => Except.noConfusion hr)
          | ok td =>
            dsimp only
            rcases hmk : taskOfValue ctx1.g td with ⟨g2, et⟩
            have hg2 := taskOfValue_gen2 _ _ _ _ hmk
            cases et with
            | error e =>
              exact after_send_adv_leaf_spec ctx m ctx1 (.ok gr) msg1 g2 _
                hgen1 hix1 hsent1 h11 h12 h13 h14 hre1 hg2.1 hg2.2
                (fun r h => Except.noConfusion h)
            | ok task =>
              dsimp only
              obtain ⟨ctx2, resp2, msg2, hsend2, hgen3, hix3, hsent2, h21,
                  h22, h23, h24, hre2⟩ :=
                sendToStorage_chain { ctx1 with g := g2 } "storage_update"
                  [("task", taskDump (markComplete task))]
                  m.correlation_id rfl
              rw [hsend2]
              cases resp2 with
              | error e =>
                exact after_two_sends_spec ctx m ctx1 msg1 (.ok gr) g2 ctx2
                  msg2 (.error e) _ hgen1 hix1 hsent1 h11 h12 h13 h14 hre1
                  hg2.1 hg2.2 hgen3 hix3 hsent2 h21 h22 h23 h24 hre2
                  (fun r h => Except.noConfusion h)
              | ok ur =>
                dsimp only
                split
                · exact after_two_sends_spec ctx m ctx1 msg1 (.ok gr) g2 ctx2
                    msg2 (.ok ur) _ hgen1 hix1 hsent1 h11 h12 h13 h14 hre1
                    hg2.1 hg2.2 hgen3 hix3 hsent2 h21 h22 h23 h24 hre2
                    (fun r2 h => mkErrorResponse_ok _ _ _ _ h)
                · exact after_two_sends_spec ctx m ctx1 msg1 (.ok gr) g2 ctx2
                    msg2 (.ok ur) _ hgen1 hix1 hsent1 h11 h12 h13 h14 hre1
                    hg2.1 hg2.2 hgen3 hix3 hsent2 h21 h22 h23 h24 hre2
                    (fun r2 h => mkSuccessResponse_ok _ _ _ _ h)
    · exact leaf_spec ctx m _ (fun r h => mkErrorResponse_ok _ _ _ _ h)

/-- Helper: `_handle_update` — the other two-hop chain (`storage_get`, then
`storage_update`) — satisfies the chain spec. -/
theorem tmHandleUpdate_chain (ctx : TMCtx) (m : AgentMessage) :
    HandlerChainSpec ctx m (tmHandleUpdate ctx m) := by
  unfold tmHandleUpdate
  cases hv : pyGet m.payload "task_id" with
  | none => exact leaf_spec ctx m _ (fun r h => mkErrorResponse_ok _ _ _ _ h)
  | some v =>
    dsimp only
    split
    · cases ht : pyGet m.payload "title" <;> cases hd : pyGet m.payload "description"
      case none.none =>
        exact leaf_spec ctx m _ (fun r h => mkErrorResponse_ok _ _ _ _ h)
      all_goals
        (obtain ⟨ctx1, resp1, msg1, hsend1, hgen1, hix1, hsent1, h11, h12,
            h13, h14, hre1⟩ :=
          sendToStorage_chain ctx "storage_get" [("task_id", v)]
            m.correlation_id rfl
         rw [hsend1]
         cases resp1 with
         | error e =>
           exact after_send_spec ctx m ctx.g ctx1 (.error e) msg1 rfl
             (Nat.le_refl _) hgen1 hix1 hsent1 h11 h12 h13 h14 hre1 _
             (fun r hr => Except.noConfusion hr)
         | ok gr =>
           dsimp only
           split
           · exact after_send_spec ctx m ctx.g ctx1 (.ok gr) msg1 rfl
               (Nat.le_refl _) hgen1 hix1 hsent1 h11 h12 h13 h14 hre1 _
               (fun r2 h => mkErrorResponse_ok _ _ _ _ h)
           · cases hrt : resultTask gr.result with
             | error e =>
               exact after_send_spec ctx m ctx.g ctx1 (.ok gr) msg1 rfl
                 (Nat.le_refl _) hgen1 hix1 hsent1 h11 h12 h13 h14 hre1 _
                 (fun r hr => Except.noConfusion hr)
             | ok td =>
               dsimp only
               rcases hmk : taskOfValue ctx1.g td with ⟨g2, et⟩
               have hg2 := taskOfValue_gen2 _ _ _ _ hmk
               cases et with
               | error e =>
                 exact after_send_adv_leaf_spec ctx m ctx1 (.ok gr) msg1 g2 _
                   hgen1 hix1 hsent1 h11 h12 h13 h14 hre1 hg2.1 hg2.2
                   (fun r h => Except.noConfusion h)
               | ok task =>
                 dsimp only
                 split
                 · exact after_send_adv_leaf_spec ctx m ctx1 (.ok gr) msg1
                     g2 _ hgen1 hix1 hsent1 h11 h12 h13 h14 hre1 hg2.1 hg2.2
                     (fun r h => Except.noConfusion h)
                 · rename_i updated htu
                   obtain ⟨ctx2, resp2, msg2, hsend2, hgen3, hix3, hsent2,
                       h21, h22, h23, h24, hre2⟩ :=
                     sendToStorage_chain { ctx1 with g := g2 }
                       "storage_update" [("task", taskDump updated)]
                       m.correlation_id rfl
                   rw [hsend2]
                   cases resp2 with
                   | error e =>
                     exact after_two_sends_spec ctx m ctx1 msg1 (.ok gr) g2
                       ctx2 msg2 (.error e) _ hgen1 hix1 hsent1 h11 h12 h13
                       h14 hre1 hg2.1 hg2.2 hgen3 hix3 hsent2 h21 h22 h23
                       h24 hre2 (fun r h => Except.noConfusion h)
                   | ok ur =>
                     dsimp only
                     split
                     · exact after_two_sends_spec ctx m ctx1 msg1 (.ok gr)
                         g2 ctx2 msg2 (.ok ur) _ hgen1 hix1 hsent1 h11 h12
                         h13 h14 hre1 hg2.1 hg2.2 hgen3 hix3 hsent2 h21 h22
                         h23 h24 hre2 (fun r2 h => mkErrorResponse_ok _ _ _ _ h)
                     · exact after_two_sends_spec ctx m ctx1 msg1 (.ok gr)
                         g2 ctx2 msg2 (.ok ur) _ hgen1 hix1 hsent1 h11 h12
                         h13 h14 hre1 hg2.1 hg2.2 hgen3 hix3 hsent2 h21 h22
                         h23 h24 hre2 (fun r2 h => mkSuccessResponse_ok _ _ _ _ h))
    · exact leaf_spec ctx m _ (fun r h => mkErrorResponse_ok _ _ _ _ h)

/-- Helper: the task-manager dispatch on a registered handler keeps the
status, threads the handler's chain spec through, and translates any raise
to an error Response that still echoes the caller's request id. -/
theorem tmHandleWith_spec (status : String) (ctx : TMCtx) (m : AgentMessage)
    (h : TMHandler) (hact : tmActions m.action = some h)
    (hspec : HandlerChainSpec ctx m (h ctx m)) :
    ∃ ctx2 resp, tmHandleMessage status ctx m = (status, ctx2, resp) ∧
      ctx2.g.gen = ctx.g.gen ∧ ctx.g.ix ≤ ctx2.g.ix ∧
      (∃ tr, ctx2.sent = ctx.sent ++ tr ∧
        ChainOk m.correlation_id ctx.g.gen ctx.g.ix ctx2.g.ix tr) ∧
      ∀ r, resp = Except.ok r → r.request_id = m.request_id := by
  unfold tmHandleMessage tmHandleWith
  rw [hact]
  dsimp only
  rcases hout : h ctx m with ⟨ctx2, e⟩
  rw [hout] at hspec
  cases e with
  | ok r =>
    exact ⟨ctx2, .ok r, rfl, hspec.1, hspec.2.1, hspec.2.2.1,
      fun r2 hr2 => by
        injection hr2 with hh
        subst hh
        exact (hspec.2.2.2 _ rfl).1⟩
  | error e =>
    exact ⟨ctx2, tmTranslate m.request_id e, rfl, hspec.1, hspec.2.1,
      hspec.2.2.1, fun r hr => (tmTranslate_ok _ _ _ hr).1⟩

/-- Helper: `TaskManagerAgent.handle_message` — for every action — keeps the
token stream, records only `ChainOk` sub-messages over the fresh index
window, and answers (when it answers at all) echoing the caller's
`request_id`. -/
theorem tm_chain (status : String) (ctx : TMCtx) (m : AgentMessage) :
    ∃ ctx2 resp, tmHandleMessage status ctx m = (status, ctx2, resp) ∧
      ctx2.g.gen = ctx.g.gen ∧ ctx.g.ix ≤ ctx2.g.ix ∧
      (∃ tr, ctx2.sent = ctx.sent ++ tr ∧
        ChainOk m.correlation_id ctx.g.gen ctx.g.ix ctx2.g.ix tr) ∧
      ∀ r, resp = Except.ok r → r.request_id = m.request_id := by
  rcases hact : tmActions m.action with _ | h
  · unfold tmHandleMessage tmHandleWith
    rw [hact]
    dsimp only
    exact ⟨ctx, _, rfl, rfl, Nat.le_refl _, ⟨[], by simp, Nat.le_refl _⟩,
      fun r hr => (mkErrorResponse_ok _ _ _ _ hr).1⟩
  · have hact2 := hact
    unfold tmActions at hact2
    split at hact2
    · injection hact2 with hh
      subst hh
      exact tmHandleWith_spec status ctx m _ hact (tmHandleAdd_chain ctx m)
    · injection hact2 with hh
      subst hh
      exact tmHandleWith_spec status ctx m _ hact (tmHandleList_chain ctx m)
    · injection hact2 with hh
      subst hh
      exact tmHandleWith_spec status ctx m _ hact (tmHandleComplete_chain ctx m)
    · injection hact2 with hh
      subst hh
      exact tmHandleWith_spec status ctx m _ hact (tmHandleDelete_chain ctx m)
    · injection hact2 with hh
      subst hh
      exact tmHandleWith_spec status ctx m _ hact (tmHandleGet_chain ctx m)
    · injection hact2 with hh
      subst hh
      exact tmHandleWith_spec status ctx m _ hact (tmHandleUpdate_chain ctx m)
    · exact absurd hact2 (by simp)

/-- C5: for every multi-hop chain — any message A sends whose action is in
the task namespace, routed by the orchestrator to the task manager B, which
sends sub-messages to the storage handler C (zero, one, or two of them:
`task_complete` and `task_update` send two) — every message C receives
carries A's `correlation_id` unchanged; each hop's `request_id` is a fresh
generator draw (`ChainOk`: draw indices at or above the current index,
strictly increasing across hops), so hop ids differ from A's `request_id`
and from each other whenever the generator never re-issues a token; C's
answer to each sub-message echoes that sub-message's own `request_id`; and
B's final Response echoes A's `request_id`. -/
theorem c5_correlation_propagation
    (ui : AgentMessage → Except PyErr AgentResponse) (s : SysState)
    (m : AgentMessage)
    (hpre : pyStartswith "task_" m.action = true)
    (hreg : "task_manager" ∈ s.agents) :
    ∃ s2 tr resp,
      orchHandleMessage ui s m = (s2, tr, resp) ∧
      s2.g.gen = s.g.gen ∧ s.g.ix ≤ s2.g.ix ∧
      ChainOk m.correlation_id s.g.gen s.g.ix s2.g.ix tr ∧
      (∀ p ∈ tr, p.1.correlation_id = m.correlation_id ∧
        p.1.sender = "task_manager" ∧ p.1.recipient = "storage_handler") ∧
      (∀ p ∈ tr, ∀ r2, p.2 = Except.ok r2 → r2.request_id = p.1.request_id) ∧
      (∀ r, resp = Except.ok r → r.request_id = m.request_id) ∧
      ((∀ k, s.g.ix ≤ k → s.g.gen k ≠ m.request_id) →
        ∀ p ∈ tr, p.1.request_id ≠ m.request_id) ∧
      ((∀ k l, s.g.ix ≤ k → s.g.ix ≤ l → s.g.gen k = s.g.gen l → k = l) →
        tr.Pairwise fun p q => p.1.request_id ≠ q.1.request_id) := by
  have hroute : getRouteForAction m.action = some "task_manager" := by
    simp [getRouteForAction, ROUTE_PREFIXES, List.find?, hpre]
  obtain ⟨ctx2, resp, htm, hgen, hix, ⟨tr, hsent, hchain⟩, hecho⟩ :=
    tm_chain s.tmStatus { g := s.g, store := s.store, sent := [] } m
  have hmem := ChainOk_mem m.correlation_id s.g.gen tr s.g.ix ctx2.g.ix hchain
  have hprops1 : ∀ p ∈ tr, p.1.correlation_id = m.correlation_id ∧
      p.1.sender = "task_manager" ∧ p.1.recipient = "storage_handler" :=
    fun p hp => ⟨(hmem p hp).2.1, (hmem p hp).2.2.1, (hmem p hp).2.2.2.1⟩
  have hprops2 : ∀ p ∈ tr, ∀ r2, p.2 = Except.ok r2 →
      r2.request_id = p.1.request_id :=
    fun p hp => (hmem p hp).2.2.2.2
  have hprops3 : (∀ k, s.g.ix ≤ k → s.g.gen k ≠ m.request_id) →
      ∀ p ∈ tr, p.1.request_id ≠ m.request_id := by
    intro hne p hp
    obtain ⟨⟨k, hk1, _, hkid⟩, _⟩ := hmem p hp
    rw [hkid]
    exact hne k hk1
  have hprops4 : (∀ k l, s.g.ix ≤ k → s.g.ix ≤ l → s.g.gen k = s.g.gen l →
      k = l) → tr.Pairwise fun p q => p.1.request_id ≠ q.1.request_id :=
    fun hinj => ChainOk_pairwise m.correlation_id s.g.gen s.g.ix hinj tr
      s.g.ix ctx2.g.ix (Nat.le_refl _) hchain
  have hstr : ctx2.sent = tr := by simpa using hsent
  unfold orchHandleMessage
  rw [hroute]
  dsimp only
  rw [if_neg (by decide), if_pos hreg, if_pos rfl, htm]
  cases resp with
  | ok r =>
    exact ⟨{ s with tmStatus := s.tmStatus, g := ctx2.g, store := ctx2.store },
      tr, .ok r, by dsimp only; rw [hstr], hgen, hix, hchain, hprops1, hprops2,
      fun r2 hr2 => by
        injection hr2 with hh
        subst hh
        exact hecho _ rfl,
      hprops3, hprops4⟩
  | error e =>
    exact ⟨{ s with tmStatus := s.tmStatus, g := ctx2.g, store := ctx2.store },
      tr, mkErrorResponse "orchestrator" m.request_id
        ("Error routing to task_manager: " ++ pyErrStr e),
      by dsimp only; rw [hstr], hgen, hix, hchain, hprops1, hprops2,
      fun r hr => (mkErrorResponse_ok _ _ _ _ hr).1,
      hprops3, hprops4⟩

/-- C5 witness: a concrete `task_complete` — a two-sub-message chain
(`storage_get` then `storage_update`) — through the started factory
system. -/
theorem c5_correlation_propagation_witness :
    ∃ s2 tr resp,
      orchHandleMessage consoleStub startedSystem
          { request_id := "r1", sender := "client",
            recipient := "orchestrator", action := "task_complete",
            payload := [("task_id", .str "t1")],
            correlation_id := "corr-7" } = (s2, tr, resp) ∧
      s2.g.gen = startedSystem.g.gen ∧ startedSystem.g.ix ≤ s2.g.ix ∧
      ChainOk "corr-7" startedSystem.g.gen startedSystem.g.ix s2.g.ix tr ∧
      (∀ p ∈ tr, p.1.correlation_id = "corr-7" ∧
        p.1.sender = "task_manager" ∧ p.1.recipient = "storage_handler") ∧
      (∀ p ∈ tr, ∀ r2, p.2 = Except.ok r2 → r2.request_id = p.1.request_id) ∧
      (∀ r, resp = Except.ok r → r.request_id = "r1") ∧
      ((∀ k, startedSystem.g.ix ≤ k → startedSystem.g.gen k ≠ "r1") →
        ∀ p ∈ tr, p.1.request_id ≠ "r1") ∧
      ((∀ k l, startedSystem.g.ix ≤ k → startedSystem.g.ix ≤ l →
          startedSystem.g.gen k = startedSystem.g.gen l → k = l) →
        tr.Pairwise fun p q => p.1.request_id ≠ q.1.request_id) :=
  c5_correlation_propagation consoleStub startedSystem
    { request_id := "r1", sender := "client", recipient := "orchestrator",
      action := "task_complete", payload := [("task_id", .str "t1")],
      correlation_id := "corr-7" }
    (by decide) (by decide)

/-- C10: for a task id absent from the in-memory store (task ids are
non-empty strings; an empty/falsy payload value is instead rejected as
`Missing \x27task_id\x27`, the spec's Validation category), a `storage_delete`
sent to the storage handler answers a *success* Response with
`{"deleted": False, "task_id": tid}` — never an error — while a
`task_delete` for the same id sent to the task manager answers an *error*
Response reading `Task not found: <task_id>`; in both cases the store is
unchanged (and the task manager's status field is untouched). -/
theorem c10_delete_not_found_divergence (g g2 : IdGen) (store : Store)
    (tid : String) (status : String) (msd mtd : AgentMessage)
    (htid : tid ≠ "")
    (habsent : storeGet store tid = none)
    (hsdact : msd.action = "storage_delete")
    (hsdpay : pyGet msd.payload "task_id" = some (.str tid))
    (hsdrid : msd.request_id ≠ "")
    (htdact : mtd.action = "task_delete")
    (htdpay : pyGet mtd.payload "task_id" = some (.str tid))
    (htdrid : mtd.request_id ≠ "")
    (hf : g2.gen g2.ix ≠ "") :
    (storageHandleMessage g store msd =
      (g, store,
       .ok { request_id := msd.request_id,
             sender := "storage_handler",
             status := RStatus.success,
             result := some (.dict [("deleted", .bool false),
                                    ("task_id", .str tid)]),
             error := none })) ∧
    (tmHandleMessage status { g := g2, store := store, sent := [] } mtd =
      (status,
       { g := { gen := g2.gen, ix := g2.ix + 1 },
         store := store,
         sent := [({ request_id := g2.gen g2.ix,
                     sender := "task_manager",
                     recipient := "storage_handler",
                     action := "storage_delete",
                     payload := [("task_id", .str tid)],
                     correlation_id := mtd.correlation_id },
                   .ok { request_id := g2.gen g2.ix,
                         sender := "storage_handler",
                         status := RStatus.success,
                         result := some (.dict [("deleted", .bool false),
                                                ("task_id", .str tid)]),
                         error := none })] },
       .ok { request_id := mtd.request_id,
             sender := "task_manager",
             status := RStatus.error,
             result := none,
             error := some ("Task not found: " ++ tid) })) := by
  have htr : pyTruthy (.str tid) = true := by simp [pyTruthy, htid]
  constructor
  · simp [storageHandleMessage, hsdact, shHandleDelete, shWrap, hsdpay, htr,
          backendDelete, habsent, mkSuccessResponse, mkAgentResponse, hsdrid]
  · have hacts : tmActions "task_delete" = some tmHandleDelete := rfl
    have hmsg : mkAgentMessage (g2.gen g2.ix) "task_manager" "storage_handler"
        "storage_delete" [("task_id", .str tid)] mtd.correlation_id =
        .ok { request_id := g2.gen g2.ix, sender := "task_manager",
              recipient := "storage_handler", action := "storage_delete",
              payload := [("task_id", .str tid)],
              correlation_id := mtd.correlation_id } := rfl
    have hinner : storageHandleMessage { gen := g2.gen, ix := g2.ix + 1 } store
        { request_id := g2.gen g2.ix, sender := "task_manager",
          recipient := "storage_handler", action := "storage_delete",
          payload := [("task_id", .str tid)],
          correlation_id := mtd.correlation_id } =
        ({ gen := g2.gen, ix := g2.ix + 1 }, store,
         .ok { request_id := g2.gen g2.ix,
               sender := "storage_handler",
               status := RStatus.success,
               result := some (.dict [("deleted", .bool false),
                                      ("task_id", .str tid)]),
               error := none }) := by
      simp [storageHandleMessage, shHandleDelete, shWrap, pyGet, htr,
            backendDelete, habsent, mkSuccessResponse, mkAgentResponse, hf]
    simp [tmHandleMessage, tmHandleWith, hacts, tmHandleDelete, htdact, htdpay,
          htr, htid, sendToStorage, IdGen.fresh, hmsg, hinner, pyGet, pyTruthy,
          pyStr, mkErrorResponse, mkAgentResponse, htdrid]

/-- C10 witness: deleting the absent id `nope` against the sample store. -/
theorem c10_delete_not_found_divergence_witness :
    (storageHandleMessage sampleGen sampleStore
        { request_id := "r1", sender := "task_manager",
          recipient := "storage_handler", action := "storage_delete",
          payload := [("task_id", .str "nope")], correlation_id := "c0" } =
      (sampleGen, sampleStore,
       .ok { request_id := "r1",
             sender := "storage_handler",
             status := RStatus.success,
             result := some (.dict [("deleted", .bool false),
                                    ("task_id", .str "nope")]),
             error := none })) ∧
    (tmHandleMessage "active" { g := sampleGen, store := sampleStore, sent := [] }
        { request_id := "r2", sender := "client",
          recipient := "task_manager", action := "task_delete",
          payload := [("task_id", .str "nope")], correlation_id := "c1" } =
      ("active",
       { g := { gen := sampleGen.gen, ix := sampleGen.ix + 1 },
         store := sampleStore,
         sent := [({ request_id := sampleGen.gen sampleGen.ix,
                     sender := "task_manager",
                     recipient := "storage_handler",
                     action := "storage_delete",
                     payload := [("task_id", .str "nope")],
                     correlation_id := "c1" },
                   .ok { request_id := sampleGen.gen sampleGen.ix,
                         sender := "storage_handler",
                         status := RStatus.success,
                         result := some (.dict [("deleted", .bool false),
                                                ("task_id", .str "nope")]),
                         error := none })] },
       .ok { request_id := "r2",
             sender := "task_manager",
             status := RStatus.error,
             result := none,
             error := some ("Task not found: " ++ "nope") })) :=
  c10_delete_not_found_divergence sampleGen sampleGen sampleStore "nope"
    "active"
    { request_id := "r1", sender := "task_manager",
      recipient := "storage_handler", action := "storage_delete",
      payload := [("task_id", .str "nope")], correlation_id := "c0" }
    { request_id := "r2", sender := "client", recipient := "task_manager",
      action := "task_delete", payload := [("task_id", .str "nope")],
      correlation_id := "c1" }
    (by decide) rfl rfl rfl (by decide) rfl rfl (by decide) (by decide)

end Todo
